import Mathlib

/-!
Monitoring Plugins SSL utilities (`plugins/sslutils.c`).

A shallow embedding of `plugins/sslutils.c` and theorems about it.

Conventions of the embedding.

* C `int` values are `Int`, without a bound: the file computes on two-digit fields
  and on day counts, far inside the range of `int`.  Bytes (`unsigned char`) are
  `Nat`.
* Pointers that may be `NULL` are `Option`s.
* Preprocessor conditions (`#if defined(...)`) are the boolean fields of `Build`.
* The protocol codes `MP_*` come from `netutils.h`, which is not part of the
  translated file; they are the fields of `Versions`.  A C `switch` needs
  pairwise different case labels, which is `Versions.distinct`.
* Functions of the SSL library and of libc are fields of `OpenSSL` and `Libc`.
* `print_singleline_return (status, fmt, ...)` prints one line and returns
  `status`; a call is the pair of the status and the line.  `_( )` (gettext) is
  the identity.
* `time_left` is a C `float` (line 198) and `days_left` is the C `int` that
  `time_left / 86400` is truncated to.  The branch chain `verdict` and `days_of`
  take the value the `float` holds, an integral number of seconds, as an `Int`,
  and truncate with `Int.tdiv`.
* Line 255 stores `difftime (tm_t, time (NULL))` in that `float`.  The embedding of
  the call takes the difference `tm_t - time` itself.  A `float` has a significand
  of 24 bits, so it holds the difference exactly when `|tm_t - time| < 2^24`
  (194 days), which is `float_exact`; beyond that the C value is the difference
  rounded to 24 bits (31535999 is stored as 31536000).  A statement that ties the
  status or the line of a call to the exact difference carries `float_exact`.
* A read `tm->data[i]` with `i` outside the `length` bytes of the string has no
  defined value in C; the decoder reports it as `Decoded.outside i`.
* `X509_free` has no effect on the status, the line or `TZ`, and is left out.
-/

namespace SslUtils

/-! ## Statuses -/

/-- Plugin return states (`STATE_OK` = `OK`, `STATE_WARNING`, `STATE_CRITICAL`,
`STATE_UNKNOWN`). -/
inductive State where
  | STATE_OK
  | STATE_WARNING
  | STATE_CRITICAL
  | STATE_UNKNOWN
  deriving DecidableEq, Repr

open State

/-- What `print_singleline_return (status, fmt, ...)` does: the status returned and
the line printed. -/
def print_singleline_return (status : State) (line : String) : State × String :=
  (status, line)

/-! ## Certificates -/

/-- An `ASN1_STRING`: its `type` tag and its `data` bytes; `length` is the number of
bytes of `data`. -/
structure ASN1_STRING where
  type : Int
  data : List Nat
  deriving DecidableEq, Repr

/-- Field `length` of an `ASN1_STRING`. -/
def ASN1_STRING.length (a : ASN1_STRING) : Nat := a.data.length

/-- ASN.1 tag of UTCTime (two-digit year). -/
def V_ASN1_UTCTIME : Int := 23

/-- ASN.1 tag of GeneralizedTime (four-digit year). -/
def V_ASN1_GENERALIZEDTIME : Int := 24

/-- An `X509_NAME`: `commonName` is the text `X509_NAME_get_text_by_NID` copies for
`NID_commonName`, `none` when it returns `-1`. -/
structure X509_NAME where
  commonName : Option String
  deriving DecidableEq, Repr

/-- An `X509` certificate: the result of `X509_get_subject_name` (`none` for `NULL`)
and of `X509_get_notAfter`. -/
structure X509 where
  subject : Option X509_NAME
  notAfter : ASN1_STRING
  deriving DecidableEq, Repr

/-- The fields of `struct tm` that the decoder sets. -/
structure tm where
  tm_year : Int
  tm_mon : Int
  tm_mday : Int
  tm_hour : Int
  tm_min : Int
  tm_sec : Int
  tm_isdst : Int
  deriving DecidableEq, Repr

/-! ## Timestamp decoder (lines 221-252) -/

/-- Result of a decoding step. -/
inductive Decoded (α : Type) where
  /-- the step computed `a` -/
  | value (a : α)
  /-- the length check failed: `"Wrong time format in certificate."` -/
  | wrong_time_format
  /-- the step read `data[index]` with `index` not below `length` -/
  | outside (index : Nat)
  deriving DecidableEq, Repr

/-- Sequencing of decoding steps: the first step that does not compute a value ends
the decoding. -/
def Decoded.bind {α β : Type} (x : Decoded α) (f : α → Decoded β) : Decoded β :=
  match x with
  | Decoded.value a => f a
  | Decoded.wrong_time_format => Decoded.wrong_time_format
  | Decoded.outside i => Decoded.outside i

/-- The read `tm->data[i]`, as the `int` the byte is promoted to. -/
def data_at (a : ASN1_STRING) (i : Nat) : Decoded Int :=
  match a.data[i]? with
  | none => Decoded.outside i
  | some byte => Decoded.value (byte : Int)

/-- The value `(tm->data[i] - '0') * 10 + (tm->data[i + 1] - '0')`. -/
def digit_pair (a : ASN1_STRING) (i : Nat) : Decoded Int :=
  (data_at a i).bind fun hi =>
  (data_at a (i + 1)).bind fun lo =>
  Decoded.value ((hi - 48) * 10 + (lo - 48))

/-- Lines 222-241: the length check, `stamp.tm_year` and `offset`. -/
def decode_year (a : ASN1_STRING) : Decoded (Int × Nat) :=
  if a.type = V_ASN1_UTCTIME then
    if a.length < 10 then Decoded.wrong_time_format
    else
      (data_at a 0).bind fun d0 =>
      (data_at a 1).bind fun d1 =>
      let tm_year := (d0 - 48) * 10 + (d1 - 48)
      let tm_year := if tm_year < 50 then tm_year + 100 else tm_year
      Decoded.value (tm_year, 0)
  else
    if a.length < 12 then Decoded.wrong_time_format
    else
      (data_at a 0).bind fun d0 =>
      (data_at a 1).bind fun d1 =>
      (data_at a 2).bind fun d2 =>
      (data_at a 3).bind fun d3 =>
      let tm_year := (d0 - 48) * 1000 + (d1 - 48) * 100 + (d2 - 48) * 10 + (d3 - 48)
      let tm_year := tm_year - 1900
      Decoded.value (tm_year, 2)

/-- Lines 242-252: the fields after the year, read at `offset`. -/
def decode_fields (a : ASN1_STRING) (tm_year : Int) (offset : Nat) : Decoded tm :=
  (digit_pair a (2 + offset)).bind fun mon =>
  (digit_pair a (4 + offset)).bind fun mday =>
  (digit_pair a (6 + offset)).bind fun hour =>
  (digit_pair a (8 + offset)).bind fun min =>
  (digit_pair a (10 + offset)).bind fun sec =>
  Decoded.value
    { tm_year := tm_year, tm_mon := mon - 1, tm_mday := mday, tm_hour := hour,
      tm_min := min, tm_sec := sec, tm_isdst := -1 }

/-- Lines 221-252: `stamp` from the not-after string `tm`. -/
def decode_stamp (a : ASN1_STRING) : Decoded tm :=
  (decode_year a).bind fun yo => decode_fields a yo.1 yo.2

/-! ## Build, protocol codes and library -/

/-- Preprocessor facts of the build: each field says that the macro of that name is
defined. -/
structure Build where
  USE_GNUTLS : Bool
  USE_OPENSSL : Bool
  OPENSSL_NO_SSL2 : Bool
  OPENSSL_NO_SSL3 : Bool
  OPENSSL_NO_TLS1 : Bool
  SSL_OP_NO_SSLv2 : Bool
  SSL_OP_NO_SSLv3 : Bool
  SSL_OP_NO_TLSv1 : Bool
  SSL_OP_NO_TLSv1_1 : Bool
  SSL_OP_NO_TLSv1_2 : Bool
  SSL_OP_NO_TICKET : Bool
  SSL_set_tlsext_host_name : Bool
  deriving DecidableEq, Repr

/-- The protocol codes `MP_*` of `netutils.h`, the case labels of the version
switch. -/
structure Versions where
  MP_SSLv2 : Int
  MP_SSLv3 : Int
  MP_TLSv1 : Int
  MP_TLSv1_1 : Int
  MP_TLSv1_2 : Int
  MP_SSLv2_OR_NEWER : Int
  MP_SSLv3_OR_NEWER : Int
  MP_TLSv1_OR_NEWER : Int
  MP_TLSv1_1_OR_NEWER : Int
  MP_TLSv1_2_OR_NEWER : Int
  deriving DecidableEq, Repr

/-- The case labels in the order of the switch. -/
def Versions.labels (k : Versions) : List Int :=
  [k.MP_SSLv2, k.MP_SSLv3, k.MP_TLSv1, k.MP_TLSv1_1, k.MP_TLSv1_2, k.MP_TLSv1_2_OR_NEWER,
   k.MP_TLSv1_1_OR_NEWER, k.MP_TLSv1_OR_NEWER, k.MP_SSLv3_OR_NEWER, k.MP_SSLv2_OR_NEWER]

/-- The case labels of a C `switch` are pairwise different. -/
def Versions.distinct (k : Versions) : Prop := k.labels.Nodup

instance (k : Versions) : Decidable k.distinct := by
  unfold Versions.distinct; infer_instance

/-- The client methods of the SSL library that the switch chooses from. -/
inductive SSL_METHOD where
  | SSLv2_client_method
  | SSLv3_client_method
  | TLSv1_client_method
  | TLSv1_1_client_method
  | TLSv1_2_client_method
  | SSLv23_client_method
  deriving DecidableEq, Repr

/-- The `long options` bit mask: one boolean for each `SSL_OP_*` bit the file uses. -/
structure Options where
  NO_SSLv2 : Bool
  NO_SSLv3 : Bool
  NO_TLSv1 : Bool
  NO_TLSv1_1 : Bool
  NO_TICKET : Bool
  deriving DecidableEq, Repr

/-- The mask `0`. -/
def Options.zero : Options :=
  { NO_SSLv2 := false, NO_SSLv3 := false, NO_TLSv1 := false, NO_TLSv1_1 := false,
    NO_TICKET := false }

/-- Bitwise or of two masks. -/
def Options.or (x y : Options) : Options :=
  { NO_SSLv2 := x.NO_SSLv2 || y.NO_SSLv2, NO_SSLv3 := x.NO_SSLv3 || y.NO_SSLv3,
    NO_TLSv1 := x.NO_TLSv1 || y.NO_TLSv1, NO_TLSv1_1 := x.NO_TLSv1_1 || y.NO_TLSv1_1,
    NO_TICKET := x.NO_TICKET || y.NO_TICKET }

/-- What this file puts into an `SSL_CTX`. -/
structure SSL_CTX where
  method : SSL_METHOD
  certificate_file : Option String
  PrivateKey_file : Option String
  options : Options
  mode_auto_retry : Bool
  deriving DecidableEq, Repr

/-- What this file puts into an `SSL`. -/
structure SSL where
  ctx : SSL_CTX
  tlsext_host_name : Option String
  fd : Option Int
  deriving DecidableEq, Repr

/-- The static variables `c`, `s` and `initialized`. -/
structure Module where
  c : Option SSL_CTX
  s : Option SSL
  initialized : Bool
  deriving DecidableEq, Repr

/-- Answers of the SSL library. -/
structure OpenSSL where
  /-- `SSL_CTX_new (method)` is not `NULL` -/
  SSL_CTX_new : SSL_METHOD → Bool
  /-- `SSL_CTX_check_private_key (c)` is not `0` -/
  SSL_CTX_check_private_key : SSL_CTX → Bool
  /-- `SSL_new (c)` is not `NULL` -/
  SSL_new : SSL_CTX → Bool
  /-- value of `SSL_connect (s)` -/
  SSL_connect : SSL → Int
  /-- value of `SSL_get_peer_certificate (s)` -/
  SSL_get_peer_certificate : Option SSL → Option X509

/-- Answers of libc. -/
structure Libc where
  /-- value of `timegm (&stamp)` -/
  timegm : tm → Int
  /-- the text `strftime (timestamp, 50, "%c %z", localtime (&tm_t))` writes, under the
  value of `TZ` at the call -/
  strftime : Option String → Int → String

/-- The process environment the file reads and writes: the variable `TZ` (`none` when
unset) and the clock `time (NULL)`. -/
structure Env where
  TZ : Option String
  time : Int
  deriving DecidableEq, Repr

/-! ## Version switch and session set-up (lines 38-159) -/

/-- Line 115: `default:` and `case MP_SSLv2_OR_NEWER:`. -/
def case_default (options : Options) : Except (State × String) (SSL_METHOD × Options) :=
  Except.ok (SSL_METHOD.SSLv23_client_method, options)

/-- Line 109: `case MP_SSLv3_OR_NEWER:`, falling through. -/
def case_SSLv3_OR_NEWER (b : Build) (options : Options) :
    Except (State × String) (SSL_METHOD × Options) :=
  case_default (if b.SSL_OP_NO_SSLv2 then { options with NO_SSLv2 := true } else options)

/-- Line 104: `case MP_TLSv1_OR_NEWER:`, falling through. -/
def case_TLSv1_OR_NEWER (b : Build) (options : Options) :
    Except (State × String) (SSL_METHOD × Options) :=
  case_SSLv3_OR_NEWER b
    (if b.SSL_OP_NO_SSLv3 then { options with NO_SSLv3 := true } else options)

/-- Line 97: `case MP_TLSv1_1_OR_NEWER:`, falling through. -/
def case_TLSv1_1_OR_NEWER (b : Build) (options : Options) :
    Except (State × String) (SSL_METHOD × Options) :=
  if !b.SSL_OP_NO_TLSv1 then
    Except.error (print_singleline_return STATE_UNKNOWN
      "Disabling TLSv1 is not supported by your SSL library.")
  else case_TLSv1_OR_NEWER b { options with NO_TLSv1 := true }

/-- Line 90: `case MP_TLSv1_2_OR_NEWER:`, falling through. -/
def case_TLSv1_2_OR_NEWER (b : Build) (options : Options) :
    Except (State × String) (SSL_METHOD × Options) :=
  if !b.SSL_OP_NO_TLSv1_1 then
    Except.error (print_singleline_return STATE_UNKNOWN
      "Disabling TLSv1.1 is not supported by your SSL library.")
  else case_TLSv1_1_OR_NEWER b { options with NO_TLSv1_1 := true }

/-- Lines 51-117: `method` and `options` after the switch, or the early return. -/
def version_switch (b : Build) (k : Versions) (version : Int) :
    Except (State × String) (SSL_METHOD × Options) :=
  let options := Options.zero
  if version = k.MP_SSLv2 then
    if b.USE_GNUTLS || b.OPENSSL_NO_SSL2 then
      Except.error (print_singleline_return STATE_UNKNOWN
        "SSL protocol version 2 is not supported by your SSL library.")
    else Except.ok (SSL_METHOD.SSLv2_client_method, options)
  else if version = k.MP_SSLv3 then
    if b.OPENSSL_NO_SSL3 then
      Except.error (print_singleline_return STATE_UNKNOWN
        "SSL protocol version 3 is not supported by your SSL library.")
    else Except.ok (SSL_METHOD.SSLv3_client_method, options)
  else if version = k.MP_TLSv1 then
    if b.OPENSSL_NO_TLS1 then
      Except.error (print_singleline_return STATE_UNKNOWN
        "TLS protocol version 1 is not supported by your SSL library.")
    else Except.ok (SSL_METHOD.TLSv1_client_method, options)
  else if version = k.MP_TLSv1_1 then
    if !b.SSL_OP_NO_TLSv1_1 then
      Except.error (print_singleline_return STATE_UNKNOWN
        "TLS protocol version 1.1 is not supported by your SSL library.")
    else Except.ok (SSL_METHOD.TLSv1_1_client_method, options)
  else if version = k.MP_TLSv1_2 then
    if !b.SSL_OP_NO_TLSv1_2 then
      Except.error (print_singleline_return STATE_UNKNOWN
        "TLS protocol version 1.2 is not supported by your SSL library.")
    else Except.ok (SSL_METHOD.TLSv1_2_client_method, options)
  else if version = k.MP_TLSv1_2_OR_NEWER then case_TLSv1_2_OR_NEWER b options
  else if version = k.MP_TLSv1_1_OR_NEWER then case_TLSv1_1_OR_NEWER b options
  else if version = k.MP_TLSv1_OR_NEWER then case_TLSv1_OR_NEWER b options
  else if version = k.MP_SSLv3_OR_NEWER then case_SSLv3_OR_NEWER b options
  else if version = k.MP_SSLv2_OR_NEWER then case_default options
  else case_default options

/-- Lines 50-159.  The result is the status returned, the line printed (`none` for
the plain `return OK`) and the static variables after the call. -/
def np_net_ssl_init_with_hostname_version_and_cert (b : Build) (k : Versions) (O : OpenSSL)
    (m : Module) (sd : Int) (host_name : Option String) (version : Int)
    (cert privkey : Option String) : (State × Option String) × Module :=
  match version_switch b k version with
  | Except.error (status, line) => ((status, some line), m)
  | Except.ok (method, options) =>
    let m := { m with initialized := true }
    if !O.SSL_CTX_new method then
      ((STATE_CRITICAL, some "Cannot create SSL context."), { m with c := none })
    else
      let c0 : SSL_CTX :=
        { method := method, certificate_file := none, PrivateKey_file := none,
          options := Options.zero, mode_auto_retry := false }
      let c1 : SSL_CTX :=
        match cert, privkey with
        | some f, some g => { c0 with certificate_file := some f, PrivateKey_file := some g }
        | _, _ => c0
      if cert.isSome && privkey.isSome && b.USE_OPENSSL
          && !O.SSL_CTX_check_private_key c1 then
        ((STATE_CRITICAL, some "Private key does not seem to match certificate!"),
          { m with c := some c1 })
      else
        let options := if b.SSL_OP_NO_TICKET then { options with NO_TICKET := true } else options
        let c2 : SSL_CTX :=
          { c1 with options := c1.options.or options, mode_auto_retry := true }
        if O.SSL_new c2 then
          let s0 : SSL := { ctx := c2, tlsext_host_name := none, fd := none }
          let s1 : SSL :=
            if b.SSL_set_tlsext_host_name then
              match host_name with
              | some h => { s0 with tlsext_host_name := some h }
              | none => s0
            else s0
          let s2 : SSL := { s1 with fd := some sd }
          let m := { m with c := some c2, s := some s2 }
          if O.SSL_connect s2 = 1 then ((STATE_OK, none), m)
          else ((STATE_CRITICAL, some "Cannot make SSL connection."), m)
        else
          ((STATE_CRITICAL, some "Cannot initiate SSL handshake."),
            { m with c := some c2, s := none })

/-- Lines 46-48. -/
def np_net_ssl_init_with_hostname_and_version (b : Build) (k : Versions) (O : OpenSSL)
    (m : Module) (sd : Int) (host_name : Option String) (version : Int) :
    (State × Option String) × Module :=
  np_net_ssl_init_with_hostname_version_and_cert b k O m sd host_name version none none

/-- Lines 42-44. -/
def np_net_ssl_init_with_hostname (b : Build) (k : Versions) (O : OpenSSL)
    (m : Module) (sd : Int) (host_name : Option String) : (State × Option String) × Module :=
  np_net_ssl_init_with_hostname_and_version b k O m sd host_name 0

/-- Lines 38-40. -/
def np_net_ssl_init (b : Build) (k : Versions) (O : OpenSSL) (m : Module) (sd : Int) :
    (State × Option String) × Module :=
  np_net_ssl_init_with_hostname b k O m sd none

/-! ## Cleanup (lines 161-174) -/

/-- A call of the SSL library that ends or releases a resource. -/
inductive Release where
  | SSL_shutdown (s : SSL)
  | SSL_free (s : SSL)
  | SSL_CTX_free (c : SSL_CTX)
  deriving DecidableEq, Repr

/-- Lines 161-174: the static variables after the call and the releasing calls made,
in order.  Where the library has `SSL_set_tlsext_host_name`, the host name of the
session is reset before the session is shut down. -/
def np_net_ssl_cleanup (b : Build) (m : Module) : Module × List Release :=
  match m.s with
  | none => (m, [])
  | some s =>
    let s : SSL := if b.SSL_set_tlsext_host_name then { s with tlsext_host_name := none } else s
    match m.c with
    | some c =>
      ({ m with c := none, s := none },
        [Release.SSL_shutdown s, Release.SSL_free s, Release.SSL_CTX_free c])
    | none => ({ m with s := none }, [Release.SSL_shutdown s, Release.SSL_free s])

/-! ## Certificate check (lines 184-307) -/

/-- The text `printf` writes for `%d`. -/
def fmt_d (n : Int) : String := toString n

/-- The text `printf` writes for `%u` given an `int`: the value modulo `2^32`. -/
def fmt_u (n : Int) : String := toString (n % 4294967296).toNat

/-- Lines 267-303: the status and the line, from `cn`, `timestamp`, `time_left`,
`days_left` and the two thresholds. -/
def verdict (cn timestamp : String) (time_left days_left : Int)
    (days_till_exp_warn days_till_exp_crit : Int) : State × String :=
  if days_left > 0 ∧ days_left ≤ days_till_exp_warn then
    let status := if days_left > days_till_exp_crit then STATE_WARNING else STATE_CRITICAL
    print_singleline_return status
      ("Certificate '" ++ cn ++ "' expires in " ++ fmt_d days_left ++ " day(s) ("
        ++ timestamp ++ ").")
  else if days_left = 0 ∧ time_left > 0 then
    let time_remaining :=
      if time_left ≥ 3600 then time_left.tdiv 3600 else time_left.tdiv 60
    let status := if days_left > days_till_exp_crit then STATE_WARNING else STATE_CRITICAL
    print_singleline_return status
      ("Certificate '" ++ cn ++ "' expires in " ++ fmt_u time_remaining ++ " "
        ++ (if time_left ≥ 3600 then "hours" else "minutes") ++ " (" ++ timestamp ++ ").")
  else if time_left < 0 then
    print_singleline_return STATE_CRITICAL
      ("Certificate '" ++ cn ++ "' expired on " ++ timestamp ++ ".")
  else if days_left = 0 then
    let status := if days_left > days_till_exp_crit then STATE_WARNING else STATE_CRITICAL
    print_singleline_return status
      ("Certificate '" ++ cn ++ "' just expired (" ++ timestamp ++ ").")
  else
    print_singleline_return STATE_OK
      ("Certificate '" ++ cn ++ "' will expire on " ++ timestamp ++ ".")

/-- Line 256: `days_left = time_left / 86400`, truncated to `int`. -/
def days_of (time_left : Int) : Int := time_left.tdiv 86400

/-- What a call of `np_net_ssl_check_cert` leaves: the status returned, the line
printed and the value of `TZ` after the call. -/
structure Checked where
  status : State
  line : String
  TZ : Option String
  deriving DecidableEq, Repr

/-- Outcome of a call: it returns, or it reads `tm->data[index]` outside the string. -/
inductive Outcome where
  | returned (r : Checked)
  | undefined_read (index : Nat)
  deriving DecidableEq, Repr

/-- Lines 208-216: the display name `cn`. -/
def display_name (subj : X509_NAME) : String :=
  match subj.commonName with
  | none => "Unknown CN"
  | some name => name

/-- Lines 184-307.  `time_left` is the difference `tm_t - env.time`; the `float` of
line 255 holds it exactly when `float_exact (tm_t - env.time)`, and holds it rounded
to 24 bits otherwise. -/
def np_net_ssl_check_cert (b : Build) (O : OpenSSL) (L : Libc) (m : Module) (env : Env)
    (days_till_exp_warn days_till_exp_crit : Int) : Outcome :=
  if b.USE_OPENSSL then
    match O.SSL_get_peer_certificate m.s with
    | none =>
      let r := print_singleline_return STATE_CRITICAL "Cannot retrieve server certificate."
      Outcome.returned { status := r.1, line := r.2, TZ := env.TZ }
    | some certificate =>
      match certificate.subject with
      | none =>
        let r := print_singleline_return STATE_CRITICAL "Cannot retrieve certificate subject."
        Outcome.returned { status := r.1, line := r.2, TZ := env.TZ }
      | some subj =>
        let cn := display_name subj
        match decode_stamp certificate.notAfter with
        | Decoded.wrong_time_format =>
          let r := print_singleline_return STATE_CRITICAL "Wrong time format in certificate."
          Outcome.returned { status := r.1, line := r.2, TZ := env.TZ }
        | Decoded.outside i => Outcome.undefined_read i
        | Decoded.value stamp =>
          let tm_t := L.timegm stamp
          let time_left := tm_t - env.time
          let days_left := days_of time_left
          let tz := env.TZ
          let env1 : Env := { env with TZ := some "GMT" }
          let timestamp := L.strftime env1.TZ tm_t
          let env2 : Env :=
            match tz with
            | some z => { env1 with TZ := some z }
            | none => { env1 with TZ := none }
          let r := verdict cn timestamp time_left days_left days_till_exp_warn
            days_till_exp_crit
          Outcome.returned { status := r.1, line := r.2, TZ := env2.TZ }
  else
    let r := print_singleline_return STATE_WARNING
      "Plugin does not support checking certificates."
    Outcome.returned { status := r.1, line := r.2, TZ := env.TZ }

/-! ## A concrete libc and concrete codes, for examples -/

/-- Days from 1970-01-01 to the civil date `y`-`m`-`d` (proleptic Gregorian). -/
def days_from_civil (y m d : Int) : Int :=
  let y := if m ≤ 2 then y - 1 else y
  let era := y / 400
  let yoe := y - era * 400
  let doy := (153 * (if m > 2 then m - 3 else m + 9) + 2) / 5 + d - 1
  let doe := yoe * 365 + yoe / 4 - yoe / 100 + doy
  era * 146097 + doe - 719468

/-- The `timegm` of POSIX for a `struct tm` whose `tm_mon` is in `0..11`. -/
def timegm_posix (t : tm) : Int :=
  days_from_civil (t.tm_year + 1900) (t.tm_mon + 1) t.tm_mday * 86400
    + t.tm_hour * 3600 + t.tm_min * 60 + t.tm_sec

/-- An example libc: POSIX `timegm`, and a `strftime` that writes the seconds since the
epoch followed by the numeric offset of the zone in force (`+0000` under `GMT`). -/
def example_libc : Libc :=
  { timegm := timegm_posix,
    strftime := fun tz t => toString t ++ (if tz = some "GMT" then " +0000" else " +????") }

/-- The bytes of an ASCII text. -/
def bytes (text : String) : List Nat := text.toList.map Char.toNat

/-- An example SSL library whose session has the peer certificate `cert`. -/
def example_openssl (cert : Option X509) : OpenSSL :=
  { SSL_CTX_new := fun _ => true,
    SSL_CTX_check_private_key := fun _ => true,
    SSL_new := fun _ => true,
    SSL_connect := fun _ => 1,
    SSL_get_peer_certificate := fun _ => cert }

/-- An example build: OpenSSL with every protocol and every option of the file. -/
def example_build : Build :=
  { USE_GNUTLS := false, USE_OPENSSL := true, OPENSSL_NO_SSL2 := false,
    OPENSSL_NO_SSL3 := false, OPENSSL_NO_TLS1 := false, SSL_OP_NO_SSLv2 := true,
    SSL_OP_NO_SSLv3 := true, SSL_OP_NO_TLSv1 := true, SSL_OP_NO_TLSv1_1 := true,
    SSL_OP_NO_TLSv1_2 := true, SSL_OP_NO_TICKET := true, SSL_set_tlsext_host_name := true }

/-- Example protocol codes, pairwise different and different from `0`. -/
def example_versions : Versions :=
  { MP_SSLv2 := 1, MP_SSLv3 := 2, MP_TLSv1 := 3, MP_TLSv1_1 := 4, MP_TLSv1_2 := 5,
    MP_SSLv2_OR_NEWER := 6, MP_SSLv3_OR_NEWER := 7, MP_TLSv1_OR_NEWER := 8,
    MP_TLSv1_1_OR_NEWER := 9, MP_TLSv1_2_OR_NEWER := 10 }

/-- The static variables before any call. -/
def Module.initial : Module := { c := none, s := none, initialized := false }

/-- A certificate with common name `name` and the UTCTime not-after `text`. -/
def example_cert (name text : String) : X509 :=
  { subject := some { commonName := some name },
    notAfter := { type := V_ASN1_UTCTIME, data := bytes text } }

/-! ## Writing a calendar moment as a timestamp -/

/-- The two ASCII decimal digits of `n`, for `n` below 100. -/
def two_digits (n : Nat) : List Nat := [48 + n / 10, 48 + n % 10]

/-- The five two-digit fields after the year: `MMDDhhmmss`. -/
def encode_fields (month day hour minute second : Nat) : List Nat :=
  two_digits month ++ two_digits day ++ two_digits hour ++ two_digits minute
    ++ two_digits second

/-- The calendar moment written as the 12 decimal digits `YYMMDDhhmmss`. -/
def encode_two_digit_year (year month day hour minute second : Nat) : List Nat :=
  two_digits (year % 100) ++ encode_fields month day hour minute second

/-- The calendar moment written as the 14 decimal digits `YYYYMMDDhhmmss`. -/
def encode_four_digit_year (year month day hour minute second : Nat) : List Nat :=
  two_digits (year / 100) ++ two_digits (year % 100)
    ++ encode_fields month day hour minute second

/-! ## Statement of the direct protocol requests -/

/-- An example build whose SSL library has neither SSLv2 nor TLSv1.2. -/
def example_build_old : Build :=
  { example_build with OPENSSL_NO_SSL2 := true, SSL_OP_NO_TLSv1_2 := false }

/-- What holds of one direct request `version`, whose protocol the build has exactly
when `capable` is true.  If it has, the switch leaves `method` and the mask `0`, and a
context the call creates has that method and no protocol version disabled.  If it has
not, the switch returns UNKNOWN with `line`, and so does the call, leaving the static
variables as they were. -/
def direct_request (b : Build) (k : Versions) (O : OpenSSL) (m : Module) (sd : Int)
    (host_name : Option String) (cert privkey : Option String) (version : Int)
    (capable : Bool) (method : SSL_METHOD) (line : String) : Prop :=
  (capable = true →
    version_switch b k version = Except.ok (method, Options.zero)
    ∧ ∀ ctx : SSL_CTX,
        (np_net_ssl_init_with_hostname_version_and_cert b k O m sd host_name version
          cert privkey).2.c = some ctx →
        ctx.method = method ∧ ctx.options.NO_SSLv2 = false ∧ ctx.options.NO_SSLv3 = false
          ∧ ctx.options.NO_TLSv1 = false ∧ ctx.options.NO_TLSv1_1 = false)
  ∧ (capable = false →
    version_switch b k version = Except.error (STATE_UNKNOWN, line)
    ∧ np_net_ssl_init_with_hostname_version_and_cert b k O m sd host_name version
        cert privkey = ((STATE_UNKNOWN, some line), m))

/-! ## Range in which the `float` of line 255 is exact -/

/-- The `float time_left` of lines 198 and 255 holds the difference `delta` of the
two `time_t` values exactly: `|delta| < 2^24`, the significand of a `float` having 24
bits.  In that range `time_left / 86400` truncates to `days_of delta` as well. -/
def float_exact (delta : Int) : Prop := -16777216 < delta ∧ delta < 16777216

instance (delta : Int) : Decidable (float_exact delta) := by
  unfold float_exact; infer_instance

/-! ## Vocabulary of the statements on protocol floors, releases and severity -/

/-- The protocol versions, oldest first. -/
inductive Protocol where
  | SSLv2
  | SSLv3
  | TLSv1
  | TLSv1_1
  | TLSv1_2
  deriving DecidableEq, Repr

/-- Age order of the protocol versions: a smaller rank is an older protocol. -/
def Protocol.rank : Protocol → Nat
  | Protocol.SSLv2 => 0
  | Protocol.SSLv3 => 1
  | Protocol.TLSv1 => 2
  | Protocol.TLSv1_1 => 3
  | Protocol.TLSv1_2 => 4

/-- The mask has the bit `SSL_OP_NO_<p>`; the file never sets a bit for TLSv1.2. -/
def Options.disables (o : Options) : Protocol → Bool
  | Protocol.SSLv2 => o.NO_SSLv2
  | Protocol.SSLv3 => o.NO_SSLv3
  | Protocol.TLSv1 => o.NO_TLSv1
  | Protocol.TLSv1_1 => o.NO_TLSv1_1
  | Protocol.TLSv1_2 => false

/-- The code of the request "`p` or newer". -/
def Versions.or_newer (k : Versions) : Protocol → Int
  | Protocol.SSLv2 => k.MP_SSLv2_OR_NEWER
  | Protocol.SSLv3 => k.MP_SSLv3_OR_NEWER
  | Protocol.TLSv1 => k.MP_TLSv1_OR_NEWER
  | Protocol.TLSv1_1 => k.MP_TLSv1_1_OR_NEWER
  | Protocol.TLSv1_2 => k.MP_TLSv1_2_OR_NEWER

/-- The build defines the option `SSL_OP_NO_<p>` that disables `p`. -/
def Build.can_disable (b : Build) : Protocol → Bool
  | Protocol.SSLv2 => b.SSL_OP_NO_SSLv2
  | Protocol.SSLv3 => b.SSL_OP_NO_SSLv3
  | Protocol.TLSv1 => b.SSL_OP_NO_TLSv1
  | Protocol.TLSv1_1 => b.SSL_OP_NO_TLSv1_1
  | Protocol.TLSv1_2 => b.SSL_OP_NO_TLSv1_2

/-- An example build whose SSL library does not define `SSL_OP_NO_SSLv3`. -/
def example_build_no_sslv3 : Build :=
  { example_build with SSL_OP_NO_SSLv3 := false }

/-- The call is `SSL_free`. -/
def Release.is_SSL_free : Release → Bool
  | Release.SSL_free _ => true
  | _ => false

/-- The call is `SSL_CTX_free`. -/
def Release.is_SSL_CTX_free : Release → Bool
  | Release.SSL_CTX_free _ => true
  | _ => false

/-- Severity order of the states the certificate check returns:
OK < WARNING < CRITICAL (< UNKNOWN). -/
def State.rank : State → Nat
  | STATE_OK => 0
  | STATE_WARNING => 1
  | STATE_CRITICAL => 2
  | STATE_UNKNOWN => 3

theorem check_cert_of_stamp (b : Build) (O : OpenSSL) (L : Libc) (m : Module) (env : Env)
    (warn crit : Int) (cert : X509) (subj : X509_NAME) (stamp : tm)
    (hb : b.USE_OPENSSL = true) (hc : O.SSL_get_peer_certificate m.s = some cert)
    (hs : cert.subject = some subj) (hd : decode_stamp cert.notAfter = Decoded.value stamp) :
    np_net_ssl_check_cert b O L m env warn crit
      = Outcome.returned
          { status := (verdict (display_name subj) (L.strftime (some "GMT") (L.timegm stamp))
              (L.timegm stamp - env.time) (days_of (L.timegm stamp - env.time)) warn crit).1,
            line := (verdict (display_name subj) (L.strftime (some "GMT") (L.timegm stamp))
              (L.timegm stamp - env.time) (days_of (L.timegm stamp - env.time)) warn crit).2,
            TZ := env.TZ } := by
  unfold np_net_ssl_check_cert
  simp only [hb, hc, hs, hd, if_true]
  cases env.TZ <;> rfl

theorem days_of_nonpos {time_left : Int} (h : time_left ≤ 0) : days_of time_left ≤ 0 := by
  unfold days_of
  have h1 : 0 ≤ (-time_left).tdiv 86400 := Int.tdiv_nonneg (by omega) (by norm_num)
  rw [Int.neg_tdiv] at h1
  omega

theorem days_of_eq_zero {time_left : Int} (h0 : 0 ≤ time_left) (h1 : time_left < 86400) :
    days_of time_left = 0 := by
  unfold days_of
  rw [Int.tdiv_eq_ediv h0 (by norm_num)]
  omega

theorem fmt_u_tdiv {time_left k : Int} (h0 : 0 ≤ time_left) (h1 : time_left < 86400)
    (hk : 1 ≤ k) : fmt_u (time_left.tdiv k) = fmt_d (time_left / k) := by
  rw [Int.tdiv_eq_ediv h0 (by omega)]
  have hq0 : 0 ≤ time_left / k := Int.ediv_nonneg h0 (by omega)
  have hq1 : time_left / k < 4294967296 := by
    have : time_left / k ≤ time_left := Int.ediv_le_self k h0
    omega
  obtain ⟨n, hn⟩ := Int.eq_ofNat_of_zero_le hq0
  unfold fmt_u fmt_d
  rw [Int.emod_eq_of_lt hq0 hq1, hn]
  rfl

theorem data_at_of_lt {a : ASN1_STRING} {i : Nat} (h : i < a.length) :
    data_at a i = Decoded.value ((a.data.getD i 0 : Nat) : Int) := by
  unfold ASN1_STRING.length at h
  unfold data_at
  rw [List.getElem?_eq_getElem h, List.getD_eq_getElem _ _ h]

theorem digit_pair_of_lt {a : ASN1_STRING} {i : Nat} (h : i + 1 < a.length) :
    digit_pair a i
      = Decoded.value ((((a.data.getD i 0 : Nat) : Int) - 48) * 10
          + (((a.data.getD (i + 1) 0 : Nat) : Int) - 48)) := by
  unfold digit_pair
  rw [data_at_of_lt (by omega : i < a.length), data_at_of_lt h]
  rfl

theorem decode_fields_of_lt {a : ASN1_STRING} {offset : Nat} (tm_year : Int)
    (h : 11 + offset < a.length) :
    ∃ stamp : tm, decode_fields a tm_year offset = Decoded.value stamp
      ∧ stamp.tm_year = tm_year := by
  unfold decode_fields
  rw [digit_pair_of_lt (by omega : 2 + offset + 1 < a.length),
    digit_pair_of_lt (by omega : 4 + offset + 1 < a.length),
    digit_pair_of_lt (by omega : 6 + offset + 1 < a.length),
    digit_pair_of_lt (by omega : 8 + offset + 1 < a.length),
    digit_pair_of_lt (by omega : 10 + offset + 1 < a.length)]
  exact ⟨_, rfl, rfl⟩

theorem bind_eq_value {α β : Type} {x : Decoded α} {f : α → Decoded β} {v : β}
    (h : x.bind f = Decoded.value v) : ∃ u, x = Decoded.value u ∧ f u = Decoded.value v := by
  cases x with
  | value u => exact ⟨u, rfl, h⟩
  | wrong_time_format => cases h
  | outside i => cases h

theorem decode_fields_year {a : ASN1_STRING} {tm_year : Int} {offset : Nat} {stamp : tm}
    (h : decode_fields a tm_year offset = Decoded.value stamp) : stamp.tm_year = tm_year := by
  unfold decode_fields at h
  obtain ⟨_, _, h⟩ := bind_eq_value h
  obtain ⟨_, _, h⟩ := bind_eq_value h
  obtain ⟨_, _, h⟩ := bind_eq_value h
  obtain ⟨_, _, h⟩ := bind_eq_value h
  obtain ⟨_, _, h⟩ := bind_eq_value h
  cases h
  rfl

theorem decode_fields_ne_wrong (a : ASN1_STRING) (tm_year : Int) (offset : Nat) :
    decode_fields a tm_year offset ≠ Decoded.wrong_time_format := by
  have hp : ∀ i, digit_pair a i ≠ Decoded.wrong_time_format := by
    intro i
    unfold digit_pair data_at
    cases a.data[i]? <;> cases a.data[i + 1]? <;> simp [Decoded.bind]
  have hb : ∀ {α β : Type} (x : Decoded α) (f : α → Decoded β),
      x ≠ Decoded.wrong_time_format → (∀ u, f u ≠ Decoded.wrong_time_format) →
      x.bind f ≠ Decoded.wrong_time_format := by
    intro α β x f hx hf
    cases x with
    | value u => exact hf u
    | wrong_time_format => exact absurd rfl hx
    | outside i => simp [Decoded.bind]
  unfold decode_fields
  refine hb _ _ (hp _) fun _ => hb _ _ (hp _) fun _ => hb _ _ (hp _) fun _ =>
    hb _ _ (hp _) fun _ => hb _ _ (hp _) fun _ => ?_
  simp

theorem decode_year_utctime {a : ASN1_STRING} (ht : a.type = V_ASN1_UTCTIME)
    (hl : 10 ≤ a.length) :
    decode_year a
      = Decoded.value
          (if (((a.data.getD 0 0 : Nat) : Int) - 48) * 10
                + (((a.data.getD 1 0 : Nat) : Int) - 48) < 50 then
             (((a.data.getD 0 0 : Nat) : Int) - 48) * 10
                + (((a.data.getD 1 0 : Nat) : Int) - 48) + 100
           else
             (((a.data.getD 0 0 : Nat) : Int) - 48) * 10
                + (((a.data.getD 1 0 : Nat) : Int) - 48), 0) := by
  unfold decode_year
  rw [if_pos ht, if_neg (by omega), data_at_of_lt (by omega : 0 < a.length),
    data_at_of_lt (by omega : 1 < a.length)]
  rfl

theorem decode_year_other {a : ASN1_STRING} (ht : a.type ≠ V_ASN1_UTCTIME)
    (hl : 12 ≤ a.length) :
    decode_year a
      = Decoded.value
          ((((a.data.getD 0 0 : Nat) : Int) - 48) * 1000
            + (((a.data.getD 1 0 : Nat) : Int) - 48) * 100
            + (((a.data.getD 2 0 : Nat) : Int) - 48) * 10
            + (((a.data.getD 3 0 : Nat) : Int) - 48) - 1900, 2) := by
  unfold decode_year
  rw [if_neg ht, if_neg (by omega), data_at_of_lt (by omega : 0 < a.length),
    data_at_of_lt (by omega : 1 < a.length), data_at_of_lt (by omega : 2 < a.length),
    data_at_of_lt (by omega : 3 < a.length)]
  rfl

theorem decode_year_wrong_iff (a : ASN1_STRING) :
    decode_year a = Decoded.wrong_time_format
      ↔ (a.type = V_ASN1_UTCTIME ∧ a.length < 10)
        ∨ (a.type ≠ V_ASN1_UTCTIME ∧ a.length < 12) := by
  by_cases ht : a.type = V_ASN1_UTCTIME
  · by_cases hl : a.length < 10
    · simp [decode_year, ht, hl]
    · rw [decode_year_utctime ht (by omega)]
      simp [ht, hl]
  · by_cases hl : a.length < 12
    · simp [decode_year, ht, hl]
    · rw [decode_year_other ht (by omega)]
      simp [ht, hl]

theorem decode_stamp_wrong_iff (a : ASN1_STRING) :
    decode_stamp a = Decoded.wrong_time_format
      ↔ (a.type = V_ASN1_UTCTIME ∧ a.length < 10)
        ∨ (a.type ≠ V_ASN1_UTCTIME ∧ a.length < 12) := by
  rw [← decode_year_wrong_iff]
  unfold decode_stamp
  cases h : decode_year a with
  | value yo => simpa [Decoded.bind] using decode_fields_ne_wrong a yo.1 yo.2
  | wrong_time_format => simp [Decoded.bind]
  | outside i => simp [Decoded.bind]

theorem certificate_line_ne (text : String) :
    "Certificate '" ++ text ≠ "Wrong time format in certificate." := by
  intro h
  have hd := congrArg String.data h
  rw [String.data_append] at hd
  have hh := congrArg List.head? hd
  have hl : ("Certificate '".data ++ text.data).head? = some 'C' := rfl
  rw [hl] at hh
  revert hh
  decide

theorem verdict_line_ne (cn timestamp : String) (time_left days_left warn crit : Int) :
    (verdict cn timestamp time_left days_left warn crit).2
      ≠ "Wrong time format in certificate." := by
  unfold verdict print_singleline_return
  split_ifs <;> simp only [String.append_assoc] <;> exact certificate_line_ne _

theorem two_digits_value (n : Nat) :
    (((48 + n / 10 : Nat) : Int) - 48) * 10 + (((48 + n % 10 : Nat) : Int) - 48) = n := by
  push_cast
  omega

theorem decode_fields_spine (type tm_year : Int) (x0 x1 x2 x3 x4 x5 x6 x7 x8 x9 : Nat)
    (pre rest : List Nat) (offset : Nat) (hp : pre.length = 2 + offset) :
    decode_fields
        (ASN1_STRING.mk type
          (pre ++ x0 :: x1 :: x2 :: x3 :: x4 :: x5 :: x6 :: x7 :: x8 :: x9 :: rest))
        tm_year offset
      = Decoded.value
          { tm_year := tm_year,
            tm_mon := ((x0 : Int) - 48) * 10 + ((x1 : Int) - 48) - 1,
            tm_mday := ((x2 : Int) - 48) * 10 + ((x3 : Int) - 48),
            tm_hour := ((x4 : Int) - 48) * 10 + ((x5 : Int) - 48),
            tm_min := ((x6 : Int) - 48) * 10 + ((x7 : Int) - 48),
            tm_sec := ((x8 : Int) - 48) * 10 + ((x9 : Int) - 48),
            tm_isdst := -1 } := by
  have hg : ∀ (j : Nat) (l : List Nat),
      (pre ++ l).getD (pre.length + j) 0 = l.getD j 0 := by
    intro j l
    rw [List.getD_eq_getElem?_getD, List.getD_eq_getElem?_getD,
      List.getElem?_append_right (by omega)]
    simp
  have hlen : (ASN1_STRING.mk type
      (pre ++ x0 :: x1 :: x2 :: x3 :: x4 :: x5 :: x6 :: x7 :: x8 :: x9 :: rest)).length
      = 12 + offset + rest.length := by
    simp only [ASN1_STRING.length, List.length_append, List.length_cons, hp]
    omega
  unfold decode_fields
  rw [digit_pair_of_lt (by rw [hlen]; omega), digit_pair_of_lt (by rw [hlen]; omega),
    digit_pair_of_lt (by rw [hlen]; omega), digit_pair_of_lt (by rw [hlen]; omega),
    digit_pair_of_lt (by rw [hlen]; omega)]
  rw [show 2 + offset = pre.length + 0 by omega, show pre.length + 0 + 1 = pre.length + 1 by omega,
    show 4 + offset = pre.length + 2 by omega, show pre.length + 2 + 1 = pre.length + 3 by omega,
    show 6 + offset = pre.length + 4 by omega, show pre.length + 4 + 1 = pre.length + 5 by omega,
    show 8 + offset = pre.length + 6 by omega, show pre.length + 6 + 1 = pre.length + 7 by omega,
    show 10 + offset = pre.length + 8 by omega, show pre.length + 8 + 1 = pre.length + 9 by omega]
  simp only [hg]
  rfl

theorem decode_stamp_two_digit_year (year month day hour minute second : Nat)
    (rest : List Nat) (hy : 1950 ≤ year ∧ year ≤ 2049) :
    decode_stamp (ASN1_STRING.mk V_ASN1_UTCTIME
        (encode_two_digit_year year month day hour minute second ++ rest))
      = Decoded.value
          { tm_year := (year : Int) - 1900, tm_mon := (month : Int) - 1, tm_mday := day,
            tm_hour := hour, tm_min := minute, tm_sec := second, tm_isdst := -1 } := by
  unfold decode_stamp
  rw [decode_year_utctime rfl (by
    simp only [ASN1_STRING.length, encode_two_digit_year, encode_fields, two_digits,
      List.length_append, List.length_cons, List.length_nil]
    omega)]
  simp only [Decoded.bind, encode_two_digit_year, encode_fields, two_digits,
    List.cons_append, List.nil_append, List.append_assoc]
  refine (decode_fields_spine V_ASN1_UTCTIME _ _ _ _ _ _ _ _ _ _ _ [_, _] rest 0 rfl).trans ?_
  simp only [List.getD_cons_zero, List.getD_cons_succ, two_digits_value]
  have hyear : (if ((year % 100 : Nat) : Int) < 50 then ((year % 100 : Nat) : Int) + 100
      else ((year % 100 : Nat) : Int)) = (year : Int) - 1900 := by
    split_ifs <;> omega
  rw [hyear]

theorem decode_stamp_four_digit_year (type : Int) (year month day hour minute second : Nat)
    (rest : List Nat) (ht : type ≠ V_ASN1_UTCTIME) :
    decode_stamp (ASN1_STRING.mk type
        (encode_four_digit_year year month day hour minute second ++ rest))
      = Decoded.value
          { tm_year := (year : Int) - 1900, tm_mon := (month : Int) - 1, tm_mday := day,
            tm_hour := hour, tm_min := minute, tm_sec := second, tm_isdst := -1 } := by
  unfold decode_stamp
  rw [decode_year_other ht (by
    simp only [ASN1_STRING.length, encode_four_digit_year, encode_fields, two_digits,
      List.length_append, List.length_cons, List.length_nil]
    omega)]
  simp only [Decoded.bind, encode_four_digit_year, encode_fields, two_digits,
    List.cons_append, List.nil_append, List.append_assoc]
  refine (decode_fields_spine type _ _ _ _ _ _ _ _ _ _ _ [_, _, _, _] rest 2 rfl).trans ?_
  simp only [List.getD_cons_zero, List.getD_cons_succ, two_digits_value]
  have hyear : (((48 + year / 100 / 10 : Nat) : Int) - 48) * 1000
      + (((48 + year / 100 % 10 : Nat) : Int) - 48) * 100
      + (((48 + year % 100 / 10 : Nat) : Int) - 48) * 10
      + (((48 + year % 100 % 10 : Nat) : Int) - 48) - 1900 = (year : Int) - 1900 := by
    push_cast
    omega
  rw [hyear]

theorem two_digits_are_digits (n : Nat) (h : n < 100) :
    ∀ x ∈ two_digits n, 48 ≤ x ∧ x ≤ 57 := by
  intro x hx
  simp only [two_digits, List.mem_cons, List.mem_singleton, List.not_mem_nil, or_false] at hx
  rcases hx with hx | hx <;> omega

theorem encode_fields_are_digits (month day hour minute second : Nat) (hmo : month < 100)
    (hd : day < 100) (hh : hour < 100) (hmi : minute < 100) (hs : second < 100) :
    ∀ x ∈ encode_fields month day hour minute second, 48 ≤ x ∧ x ≤ 57 := by
  intro x hx
  simp only [encode_fields, List.mem_append] at hx
  rcases hx with (((hx | hx) | hx) | hx) | hx
  · exact two_digits_are_digits _ hmo x hx
  · exact two_digits_are_digits _ hd x hx
  · exact two_digits_are_digits _ hh x hx
  · exact two_digits_are_digits _ hmi x hx
  · exact two_digits_are_digits _ hs x hx

theorem check_cert_congr (b : Build) (O O2 : OpenSSL) (L : Libc) (m : Module) (env : Env)
    (warn crit : Int) (cert cert2 : X509)
    (hc : O.SSL_get_peer_certificate m.s = some cert)
    (hc2 : O2.SSL_get_peer_certificate m.s = some cert2)
    (hs : cert.subject = cert2.subject)
    (hd : decode_stamp cert.notAfter = decode_stamp cert2.notAfter) :
    np_net_ssl_check_cert b O L m env warn crit
      = np_net_ssl_check_cert b O2 L m env warn crit := by
  unfold np_net_ssl_check_cert
  rw [hc, hc2]
  simp only [hs, hd]

theorem init_of_switch_error (b : Build) (k : Versions) (O : OpenSSL) (m : Module)
    (sd : Int) (host_name : Option String) (version : Int) (cert privkey : Option String)
    (status : State) (line : String)
    (h : version_switch b k version = Except.error (status, line)) :
    np_net_ssl_init_with_hostname_version_and_cert b k O m sd host_name version cert privkey
      = ((status, some line), m) := by
  unfold np_net_ssl_init_with_hostname_version_and_cert
  rw [h]

theorem init_context_of_switch_ok (b : Build) (k : Versions) (O : OpenSSL) (m : Module)
    (sd : Int) (host_name : Option String) (version : Int) (cert privkey : Option String)
    (method : SSL_METHOD) (options : Options)
    (h : version_switch b k version = Except.ok (method, options)) (ctx : SSL_CTX)
    (hc : (np_net_ssl_init_with_hostname_version_and_cert b k O m sd host_name version
      cert privkey).2.c = some ctx) :
    ctx.method = method
      ∧ (ctx.options = Options.zero
        ∨ ctx.options = Options.zero.or
            (if b.SSL_OP_NO_TICKET then { options with NO_TICKET := true } else options)) := by
  unfold np_net_ssl_init_with_hostname_version_and_cert at hc
  rw [h] at hc
  cases hT : b.SSL_OP_NO_TICKET
  all_goals
    simp only [hT, Bool.false_eq_true, if_false, if_true] at hc ⊢
    split_ifs at hc
    all_goals try (simp only [reduceCtorEq] at hc)
    all_goals
      simp only [Option.some.injEq] at hc
      subst hc
      refine ⟨?_, ?_⟩
      · cases cert <;> cases privkey <;> rfl
      · first
        | (left; cases cert <;> cases privkey <;> rfl)
        | (right; cases cert <;> cases privkey <;> rfl)

theorem version_switch_direct (b : Build) (k : Versions) (hk : k.distinct) :
    version_switch b k k.MP_SSLv2
        = (if b.USE_GNUTLS || b.OPENSSL_NO_SSL2 then
            Except.error (STATE_UNKNOWN,
              "SSL protocol version 2 is not supported by your SSL library.")
           else Except.ok (SSL_METHOD.SSLv2_client_method, Options.zero))
    ∧ version_switch b k k.MP_SSLv3
        = (if b.OPENSSL_NO_SSL3 then
            Except.error (STATE_UNKNOWN,
              "SSL protocol version 3 is not supported by your SSL library.")
           else Except.ok (SSL_METHOD.SSLv3_client_method, Options.zero))
    ∧ version_switch b k k.MP_TLSv1
        = (if b.OPENSSL_NO_TLS1 then
            Except.error (STATE_UNKNOWN,
              "TLS protocol version 1 is not supported by your SSL library.")
           else Except.ok (SSL_METHOD.TLSv1_client_method, Options.zero))
    ∧ version_switch b k k.MP_TLSv1_1
        = (if !b.SSL_OP_NO_TLSv1_1 then
            Except.error (STATE_UNKNOWN,
              "TLS protocol version 1.1 is not supported by your SSL library.")
           else Except.ok (SSL_METHOD.TLSv1_1_client_method, Options.zero))
    ∧ version_switch b k k.MP_TLSv1_2
        = (if !b.SSL_OP_NO_TLSv1_2 then
            Except.error (STATE_UNKNOWN,
              "TLS protocol version 1.2 is not supported by your SSL library.")
           else Except.ok (SSL_METHOD.TLSv1_2_client_method, Options.zero)) := by
  simp only [Versions.distinct, Versions.labels, List.nodup_cons, List.mem_cons,
    List.mem_singleton, List.not_mem_nil, not_or, or_false, List.nodup_nil] at hk
  obtain ⟨⟨h12, h13, h14, h15, -⟩, ⟨h23, h24, h25, -⟩, ⟨h34, h35, -⟩, ⟨h45, -⟩, -⟩ := hk
  refine ⟨?_, ?_, ?_, ?_, ?_⟩
  · simp only [version_switch, print_singleline_return, if_true]
  · simp only [version_switch, print_singleline_return, if_neg (Ne.symm h12), if_true]
  · simp only [version_switch, print_singleline_return, if_neg (Ne.symm h13),
      if_neg (Ne.symm h23), if_true]
  · simp only [version_switch, print_singleline_return, if_neg (Ne.symm h14),
      if_neg (Ne.symm h24), if_neg (Ne.symm h34), if_true]
  · simp only [version_switch, print_singleline_return, if_neg (Ne.symm h15),
      if_neg (Ne.symm h25), if_neg (Ne.symm h35), if_neg (Ne.symm h45), if_true]

theorem direct_request_of_switch (b : Build) (k : Versions) (O : OpenSSL) (m : Module)
    (sd : Int) (host_name : Option String) (cert privkey : Option String) (version : Int)
    (missing : Bool) (method : SSL_METHOD) (line : String)
    (h : version_switch b k version
      = (if missing then Except.error (STATE_UNKNOWN, line)
         else Except.ok (method, Options.zero))) :
    direct_request b k O m sd host_name cert privkey version (!missing) method line := by
  constructor
  · intro hcap
    have hm : missing = false := by simpa using hcap
    rw [hm] at h
    simp only [Bool.false_eq_true, if_false] at h
    refine ⟨h, ?_⟩
    intro ctx hc
    obtain ⟨h1, h2⟩ := init_context_of_switch_ok b k O m sd host_name version cert privkey
      method Options.zero h ctx hc
    refine ⟨h1, ?_⟩
    rcases h2 with h2 | h2 <;> rw [h2] <;> cases b.SSL_OP_NO_TICKET <;> decide
  · intro hcap
    have hm : missing = true := by simpa using hcap
    rw [hm] at h
    simp only [if_true] at h
    exact ⟨h, init_of_switch_error b k O m sd host_name version cert privkey _ _ h⟩

theorem version_switch_or_newer (b : Build) (k : Versions) (hk : k.distinct) :
    version_switch b k k.MP_SSLv2_OR_NEWER
        = Except.ok (SSL_METHOD.SSLv23_client_method, Options.zero)
    ∧ version_switch b k k.MP_SSLv3_OR_NEWER
        = Except.ok (SSL_METHOD.SSLv23_client_method,
            { Options.zero with NO_SSLv2 := b.SSL_OP_NO_SSLv2 })
    ∧ version_switch b k k.MP_TLSv1_OR_NEWER
        = Except.ok (SSL_METHOD.SSLv23_client_method,
            { Options.zero with NO_SSLv2 := b.SSL_OP_NO_SSLv2,
                                NO_SSLv3 := b.SSL_OP_NO_SSLv3 })
    ∧ version_switch b k k.MP_TLSv1_1_OR_NEWER
        = (if !b.SSL_OP_NO_TLSv1 then
            Except.error (STATE_UNKNOWN,
              "Disabling TLSv1 is not supported by your SSL library.")
           else
            Except.ok (SSL_METHOD.SSLv23_client_method,
              { Options.zero with NO_SSLv2 := b.SSL_OP_NO_SSLv2,
                                  NO_SSLv3 := b.SSL_OP_NO_SSLv3, NO_TLSv1 := true }))
    ∧ version_switch b k k.MP_TLSv1_2_OR_NEWER
        = (if !b.SSL_OP_NO_TLSv1_1 then
            Except.error (STATE_UNKNOWN,
              "Disabling TLSv1.1 is not supported by your SSL library.")
           else if !b.SSL_OP_NO_TLSv1 then
            Except.error (STATE_UNKNOWN,
              "Disabling TLSv1 is not supported by your SSL library.")
           else
            Except.ok (SSL_METHOD.SSLv23_client_method,
              { Options.zero with NO_SSLv2 := b.SSL_OP_NO_SSLv2,
                                  NO_SSLv3 := b.SSL_OP_NO_SSLv3, NO_TLSv1 := true,
                                  NO_TLSv1_1 := true })) := by
  simp only [Versions.distinct, Versions.labels, List.nodup_cons, List.mem_cons,
    List.mem_singleton, List.not_mem_nil, not_or, or_false, List.nodup_nil] at hk
  obtain ⟨⟨-, -, -, -, a6, a7, a8, a9, a10⟩, ⟨-, -, -, b6, b7, b8, b9, b10⟩,
    ⟨-, -, c6, c7, c8, c9, c10⟩, ⟨-, d6, d7, d8, d9, d10⟩, ⟨e6, e7, e8, e9, e10⟩,
    ⟨f7, f8, f9, f10⟩, ⟨g8, g9, g10⟩, ⟨h9, h10⟩, i10, -⟩ := hk
  refine ⟨?_, ?_, ?_, ?_, ?_⟩
  · simp only [version_switch, case_default, if_neg (Ne.symm a10), if_neg (Ne.symm b10),
      if_neg (Ne.symm c10), if_neg (Ne.symm d10), if_neg (Ne.symm e10),
      if_neg (Ne.symm f10), if_neg (Ne.symm g10), if_neg (Ne.symm h10),
      if_neg (Ne.symm i10), if_true]
  · simp only [version_switch, case_SSLv3_OR_NEWER, case_default, if_neg (Ne.symm a9),
      if_neg (Ne.symm b9), if_neg (Ne.symm c9), if_neg (Ne.symm d9), if_neg (Ne.symm e9),
      if_neg (Ne.symm f9), if_neg (Ne.symm g9), if_neg (Ne.symm h9), if_true]
    cases b.SSL_OP_NO_SSLv2 <;> rfl
  · simp only [version_switch, case_TLSv1_OR_NEWER, case_SSLv3_OR_NEWER, case_default,
      if_neg (Ne.symm a8), if_neg (Ne.symm b8), if_neg (Ne.symm c8), if_neg (Ne.symm d8),
      if_neg (Ne.symm e8), if_neg (Ne.symm f8), if_neg (Ne.symm g8), if_true]
    cases b.SSL_OP_NO_SSLv2 <;> cases b.SSL_OP_NO_SSLv3 <;> rfl
  · simp only [version_switch, case_TLSv1_1_OR_NEWER, case_TLSv1_OR_NEWER,
      case_SSLv3_OR_NEWER, case_default, print_singleline_return, if_neg (Ne.symm a7),
      if_neg (Ne.symm b7), if_neg (Ne.symm c7), if_neg (Ne.symm d7), if_neg (Ne.symm e7),
      if_neg (Ne.symm f7), if_true]
    cases b.SSL_OP_NO_SSLv2 <;> cases b.SSL_OP_NO_SSLv3 <;> cases b.SSL_OP_NO_TLSv1 <;> rfl
  · simp only [version_switch, case_TLSv1_2_OR_NEWER, case_TLSv1_1_OR_NEWER,
      case_TLSv1_OR_NEWER, case_SSLv3_OR_NEWER, case_default, print_singleline_return,
      if_neg (Ne.symm a6), if_neg (Ne.symm b6), if_neg (Ne.symm c6), if_neg (Ne.symm d6),
      if_neg (Ne.symm e6), if_true]
    cases b.SSL_OP_NO_SSLv2 <;> cases b.SSL_OP_NO_SSLv3 <;> cases b.SSL_OP_NO_TLSv1
      <;> cases b.SSL_OP_NO_TLSv1_1 <;> rfl

theorem version_switch_default (b : Build) (k : Versions) (version : Int)
    (h : version ∉ k.labels) :
    version_switch b k version = Except.ok (SSL_METHOD.SSLv23_client_method, Options.zero) := by
  simp only [Versions.labels, List.mem_cons, List.mem_singleton, List.not_mem_nil, not_or,
    or_false] at h
  obtain ⟨h1, h2, h3, h4, h5, h6, h7, h8, h9, h10⟩ := h
  simp only [version_switch, case_default, if_neg h1, if_neg h2, if_neg h3, if_neg h4,
    if_neg h5, if_neg h6, if_neg h7, if_neg h8, if_neg h9, if_neg h10]

theorem init_status_of_switch_ok (b : Build) (k : Versions) (O : OpenSSL) (m : Module)
    (sd : Int) (host_name : Option String) (version : Int) (cert privkey : Option String)
    (method : SSL_METHOD) (options : Options)
    (h : version_switch b k version = Except.ok (method, options)) :
    (np_net_ssl_init_with_hostname_version_and_cert b k O m sd host_name version
      cert privkey).1.1 ≠ STATE_UNKNOWN := by
  unfold np_net_ssl_init_with_hostname_version_and_cert
  rw [h]
  simp only
  split_ifs <;> simp

theorem init_context_plain (b : Build) (k : Versions) (O : OpenSSL) (m : Module)
    (sd : Int) (host_name : Option String) (version : Int) (cert privkey : Option String)
    (method : SSL_METHOD)
    (h : version_switch b k version = Except.ok (method, Options.zero)) (ctx : SSL_CTX)
    (hc : (np_net_ssl_init_with_hostname_version_and_cert b k O m sd host_name version
      cert privkey).2.c = some ctx) :
    ctx.method = method ∧ ∀ p : Protocol, ctx.options.disables p = false := by
  obtain ⟨h1, h2⟩ := init_context_of_switch_ok b k O m sd host_name version cert privkey
    method Options.zero h ctx hc
  refine ⟨h1, ?_⟩
  intro p
  rcases h2 with h2 | h2 <;> rw [h2] <;> cases b.SSL_OP_NO_TICKET <;> cases p <;> rfl

theorem decode_stamp_of_length {a : ASN1_STRING} (h : 14 ≤ a.length) :
    ∃ stamp : tm, decode_stamp a = Decoded.value stamp := by
  unfold decode_stamp
  by_cases ht : a.type = V_ASN1_UTCTIME
  · rw [decode_year_utctime ht (by omega)]
    obtain ⟨stamp, hs, -⟩ := @decode_fields_of_lt a 0 _ (by omega)
    exact ⟨stamp, hs⟩
  · rw [decode_year_other ht (by omega)]
    obtain ⟨stamp, hs, -⟩ := @decode_fields_of_lt a 2 _ (by omega)
    exact ⟨stamp, hs⟩

theorem check_cert_cases (b : Build) (O : OpenSSL) (L : Libc) (m : Module) (env : Env)
    (warn crit : Int) :
    (∃ (status : State) (line : String),
        np_net_ssl_check_cert b O L m env warn crit
          = Outcome.returned { status := status, line := line, TZ := env.TZ })
    ∨ ∃ (cert : X509) (subj : X509_NAME) (i : Nat),
        b.USE_OPENSSL = true ∧ O.SSL_get_peer_certificate m.s = some cert
        ∧ cert.subject = some subj ∧ decode_stamp cert.notAfter = Decoded.outside i
        ∧ np_net_ssl_check_cert b O L m env warn crit = Outcome.undefined_read i := by
  by_cases hb : b.USE_OPENSSL = true
  · cases hc : O.SSL_get_peer_certificate m.s with
    | none =>
      left
      exact ⟨_, _, by simp only [np_net_ssl_check_cert, hb, hc, if_true]; rfl⟩
    | some cert =>
      cases hs : cert.subject with
      | none =>
        left
        exact ⟨_, _, by simp only [np_net_ssl_check_cert, hb, hc, hs, if_true]; rfl⟩
      | some subj =>
        cases hd : decode_stamp cert.notAfter with
        | wrong_time_format =>
          left
          exact ⟨_, _, by simp only [np_net_ssl_check_cert, hb, hc, hs, hd, if_true]; rfl⟩
        | outside i =>
          right
          exact ⟨cert, subj, i, hb, rfl, hs, hd,
            by simp only [np_net_ssl_check_cert, hb, hc, hs, hd, if_true]⟩
        | value stamp =>
          left
          exact ⟨_, _, check_cert_of_stamp b O L m env warn crit cert subj stamp hb hc hs hd⟩
  · left
    exact ⟨_, _, by simp only [np_net_ssl_check_cert, hb, if_false, Bool.false_eq_true]; rfl⟩

theorem just_expired_data_ne (p q l1 l2 : List Char) (x : String)
    (hx : x = "' expires in " ∨ x = "' expired on " ∨ x = "' will expire on ") :
    p ++ (q ++ ("' just expired (".data ++ l1)) ≠ p ++ (q ++ (x.data ++ l2)) := by
  intro h
  have h1 := List.append_cancel_left (List.append_cancel_left h)
  have h2 := congrArg (fun l => l.getD 2 'x') h1
  have hl : ("' just expired (".data ++ l1).getD 2 'x' = 'j' := rfl
  simp only [hl] at h2
  rcases hx with hx | hx | hx <;> subst hx
  · have hr : ("' expires in ".data ++ l2).getD 2 'x' = 'e' := rfl
    rw [hr] at h2
    revert h2
    decide
  · have hr : ("' expired on ".data ++ l2).getD 2 'x' = 'e' := rfl
    rw [hr] at h2
    revert h2
    decide
  · have hr : ("' will expire on ".data ++ l2).getD 2 'x' = 'w' := rfl
    rw [hr] at h2
    revert h2
    decide

theorem verdict_just_expired_iff (cn timestamp : String) (time_left warn crit : Int) :
    (verdict cn timestamp time_left (days_of time_left) warn crit).2
        = "Certificate '" ++ cn ++ "' just expired (" ++ timestamp ++ ")."
      ↔ time_left = 0 := by
  constructor
  · intro h
    unfold verdict print_singleline_return at h
    split_ifs at h with h1 h2 h3 h4 h5 h6 h7 h8
    all_goals first
      | (have hd := congrArg String.data h
         simp only [String.data_append, List.append_assoc] at hd
         first
          | exact absurd hd.symm (just_expired_data_ne _ _ _ _ "' expires in " (Or.inl rfl))
          | exact absurd hd.symm
              (just_expired_data_ne _ _ _ _ "' expired on " (Or.inr (Or.inl rfl)))
          | exact absurd hd.symm
              (just_expired_data_ne _ _ _ _ "' will expire on " (Or.inr (Or.inr rfl))))
      | (by_contra hne
         have h0 : 0 < time_left := by omega
         exact (by assumption : ¬(days_of time_left = 0 ∧ time_left > 0))
           ⟨by assumption, h0⟩)
  · intro h
    subst h
    have hd : days_of 0 = 0 := by decide
    unfold verdict print_singleline_return
    rw [hd]
    simp

theorem verdict_just_expired (cn timestamp : String) (warn crit : Int) :
    verdict cn timestamp 0 (days_of 0) warn crit
      = (if 0 > crit then STATE_WARNING else STATE_CRITICAL,
         "Certificate '" ++ cn ++ "' just expired (" ++ timestamp ++ ").") := by
  have hd : days_of 0 = 0 := by decide
  unfold verdict print_singleline_return
  rw [hd]
  simp

theorem or_newer_options (b : Build) (k : Versions) (hk : k.distinct) (X : Protocol)
    (method : SSL_METHOD) (options : Options)
    (h : version_switch b k (k.or_newer X) = Except.ok (method, options)) :
    method = SSL_METHOD.SSLv23_client_method
      ∧ options
        = { NO_SSLv2 := b.SSL_OP_NO_SSLv2 && decide (Protocol.SSLv2.rank < X.rank),
            NO_SSLv3 := b.SSL_OP_NO_SSLv3 && decide (Protocol.SSLv3.rank < X.rank),
            NO_TLSv1 := decide (Protocol.TLSv1.rank < X.rank),
            NO_TLSv1_1 := decide (Protocol.TLSv1_1.rank < X.rank),
            NO_TICKET := false } := by
  obtain ⟨e2, e3, e1, e11, e12⟩ := version_switch_or_newer b k hk
  cases X with
  | SSLv2 =>
    rw [Versions.or_newer, e2] at h
    cases h
    simp [Protocol.rank, Options.zero]
  | SSLv3 =>
    rw [Versions.or_newer, e3] at h
    cases h
    simp [Protocol.rank, Options.zero]
  | TLSv1 =>
    rw [Versions.or_newer, e1] at h
    cases h
    simp [Protocol.rank, Options.zero]
  | TLSv1_1 =>
    rw [Versions.or_newer, e11] at h
    split_ifs at h
    cases h
    simp [Protocol.rank, Options.zero]
  | TLSv1_2 =>
    rw [Versions.or_newer, e12] at h
    split_ifs at h
    cases h
    simp [Protocol.rank, Options.zero]

theorem version_switch_no_ticket (b : Build) (k : Versions) (hk : k.distinct)
    (version : Int) (method : SSL_METHOD) (options : Options)
    (h : version_switch b k version = Except.ok (method, options)) :
    options.NO_TICKET = false := by
  by_cases hv : version ∈ k.labels
  · obtain ⟨d2, d3, d1, d11, d12⟩ := version_switch_direct b k hk
    have hdirect : ∀ (c : Bool) (line : String) (meth : SSL_METHOD),
        (if c = true then (Except.error (STATE_UNKNOWN, line) :
            Except (State × String) (SSL_METHOD × Options))
          else Except.ok (meth, Options.zero)) = Except.ok (method, options) →
        options.NO_TICKET = false := by
      intro c line meth hc
      split_ifs at hc
      cases hc
      rfl
    simp only [Versions.labels, List.mem_cons, List.mem_singleton, List.not_mem_nil,
      or_false] at hv
    rcases hv with hv | hv | hv | hv | hv | hv | hv | hv | hv | hv <;> subst hv
    · rw [d2] at h; exact hdirect _ _ _ h
    · rw [d3] at h; exact hdirect _ _ _ h
    · rw [d1] at h; exact hdirect _ _ _ h
    · rw [d11] at h; exact hdirect _ _ _ h
    · rw [d12] at h; exact hdirect _ _ _ h
    · have ho := (or_newer_options b k hk Protocol.TLSv1_2 method options h).2
      rw [ho]
    · have ho := (or_newer_options b k hk Protocol.TLSv1_1 method options h).2
      rw [ho]
    · have ho := (or_newer_options b k hk Protocol.TLSv1 method options h).2
      rw [ho]
    · have ho := (or_newer_options b k hk Protocol.SSLv3 method options h).2
      rw [ho]
    · have ho := (or_newer_options b k hk Protocol.SSLv2 method options h).2
      rw [ho]
  · rw [version_switch_default b k version hv] at h
    cases h
    rfl

theorem init_context_applied (b : Build) (k : Versions) (O : OpenSSL) (m : Module)
    (sd : Int) (host_name : Option String) (version : Int) (cert privkey : Option String)
    (method : SSL_METHOD) (options : Options)
    (h : version_switch b k version = Except.ok (method, options)) (ctx : SSL_CTX)
    (hc : (np_net_ssl_init_with_hostname_version_and_cert b k O m sd host_name version
      cert privkey).2.c = some ctx)
    (hr : ctx.mode_auto_retry = true) :
    ctx.options = Options.zero.or
      (if b.SSL_OP_NO_TICKET then { options with NO_TICKET := true } else options) := by
  unfold np_net_ssl_init_with_hostname_version_and_cert at hc
  rw [h] at hc
  cases hT : b.SSL_OP_NO_TICKET
  all_goals
    simp only [hT, Bool.false_eq_true, if_false, if_true] at hc ⊢
    split_ifs at hc
    all_goals try (simp only [reduceCtorEq] at hc)
    all_goals
      simp only [Option.some.injEq] at hc
      subst hc
      cases cert <;> cases privkey <;> first | rfl | (simp at hr)

theorem init_context_exists (b : Build) (k : Versions) (O : OpenSSL) (m : Module)
    (sd : Int) (host_name : Option String) (version : Int) (cert privkey : Option String)
    (method : SSL_METHOD) (options : Options)
    (h : version_switch b k version = Except.ok (method, options))
    (hnew : O.SSL_CTX_new method = true)
    (hkey : cert = none ∨ privkey = none ∨ b.USE_OPENSSL = false
      ∨ ∀ c : SSL_CTX, O.SSL_CTX_check_private_key c = true) :
    ∃ ctx : SSL_CTX,
      (np_net_ssl_init_with_hostname_version_and_cert b k O m sd host_name version
        cert privkey).2.c = some ctx ∧ ctx.mode_auto_retry = true := by
  unfold np_net_ssl_init_with_hostname_version_and_cert
  rw [h]
  simp only [hnew, Bool.not_true, Bool.false_eq_true, if_false]
  split_ifs with h1 h2 h3
  all_goals first
    | exact ⟨_, rfl, rfl⟩
    | (exfalso
       rcases hkey with hk | hk | hk | hk
       · subst hk
         simp at h1
       · subst hk
         simp at h1
       · simp [hk] at h1
       · simp [hk] at h1)

theorem verdict_rank_le (cn timestamp : String) (time_left days_left warn crit : Int) :
    (verdict cn timestamp time_left days_left warn crit).1.rank ≤ 2 := by
  unfold verdict print_singleline_return
  split_ifs <;> dsimp only <;> decide

theorem verdict_of_negative (cn timestamp : String) (time_left warn crit : Int)
    (hneg : time_left < 0) :
    verdict cn timestamp time_left (days_of time_left) warn crit
      = (STATE_CRITICAL, "Certificate '" ++ cn ++ "' expired on " ++ timestamp ++ ".") := by
  have hd0 : days_of time_left ≤ 0 := days_of_nonpos (le_of_lt hneg)
  unfold verdict print_singleline_return
  rw [if_neg (fun h => absurd h.1 (not_lt.mpr hd0)),
    if_neg (fun h => absurd h.2 (not_lt.mpr (le_of_lt hneg))), if_pos hneg]

theorem verdict_rank_mono (cn1 ts1 cn2 ts2 : String) (tl1 tl2 warn crit : Int)
    (h : tl1 ≤ tl2) :
    (verdict cn2 ts2 tl2 (days_of tl2) warn crit).1.rank
      ≤ (verdict cn1 ts1 tl1 (days_of tl1) warn crit).1.rank := by
  by_cases h1 : tl1 < 0
  · rw [verdict_of_negative cn1 ts1 tl1 warn crit h1]
    exact verdict_rank_le _ _ _ _ _ _
  · have e1 : days_of tl1 = tl1 / 86400 := by
      unfold days_of
      exact Int.tdiv_eq_ediv (by omega) (by norm_num)
    have e2 : days_of tl2 = tl2 / 86400 := by
      unfold days_of
      exact Int.tdiv_eq_ediv (by omega) (by norm_num)
    rw [e1, e2]
    unfold verdict print_singleline_return
    split_ifs <;> dsimp only <;> first | decide | omega

/-! ## Theorems -/

/-- C2: for every negative `time_left` and all thresholds, negative ones included, the
status is CRITICAL and the line is "Certificate '{cn}' expired on {timestamp}.": no
earlier branch of the chain takes a negative `time_left`. -/
theorem C2_expired (cn timestamp : String) (time_left warn crit : Int)
    (hneg : time_left < 0) :
    verdict cn timestamp time_left (days_of time_left) warn crit
        = (STATE_CRITICAL, "Certificate '" ++ cn ++ "' expired on " ++ timestamp ++ ".")
    ∧ ∀ (b : Build) (O : OpenSSL) (L : Libc) (m : Module) (env : Env) (cert : X509)
        (subj : X509_NAME) (stamp : tm),
        b.USE_OPENSSL = true → O.SSL_get_peer_certificate m.s = some cert →
        cert.subject = some subj → decode_stamp cert.notAfter = Decoded.value stamp →
        L.timegm stamp - env.time = time_left → display_name subj = cn →
        L.strftime (some "GMT") (L.timegm stamp) = timestamp →
        np_net_ssl_check_cert b O L m env warn crit
          = Outcome.returned
              { status := STATE_CRITICAL,
                line := "Certificate '" ++ cn ++ "' expired on " ++ timestamp ++ ".",
                TZ := env.TZ } := by
  have hd0 : days_of time_left ≤ 0 := days_of_nonpos (le_of_lt hneg)
  have hv : verdict cn timestamp time_left (days_of time_left) warn crit
        = (STATE_CRITICAL, "Certificate '" ++ cn ++ "' expired on " ++ timestamp ++ ".") := by
    unfold verdict print_singleline_return
    rw [if_neg (fun h => absurd h.1 (not_lt.mpr hd0)),
      if_neg (fun h => absurd h.2 (not_lt.mpr (le_of_lt hneg))), if_pos hneg]
  refine ⟨hv, ?_⟩
  intro b O L m env cert subj stamp hb hc hs hd ht hn hts
  rw [check_cert_of_stamp b O L m env warn crit cert subj stamp hb hc hs hd, ht, hn, hts, hv]

/-- C2, the scenario of the specification: clock 2024-01-10T00:00:00Z, not-after
2024-01-09T00:00:00Z. -/
theorem C2_expired_witness :
    (-86400 : Int) < 0
    ∧ np_net_ssl_check_cert example_build
        (example_openssl (some (example_cert "example.org" "240109000000Z")))
        example_libc Module.initial ⟨none, 1704844800⟩ 10 3
      = Outcome.returned
          { status := STATE_CRITICAL,
            line := "Certificate 'example.org' expired on 1704758400 +0000.",
            TZ := none } :=
  ⟨by decide,
    ((C2_expired "example.org" "1704758400 +0000" (-86400) 10 3 (by decide)).2 example_build
      (example_openssl (some (example_cert "example.org" "240109000000Z")))
      example_libc Module.initial ⟨none, 1704844800⟩
      (example_cert "example.org" "240109000000Z") ⟨some "example.org"⟩
      ⟨124, 0, 9, 0, 0, 0, -1⟩ (by decide) (by decide) (by decide) (by decide) (by decide)
      (by decide) (by decide)).trans (by decide)⟩

/-- C4: for `0 < time_left < 86400` (so `days_left = 0`) and all thresholds, the status
is WARNING if `0 > days_till_exp_crit` and CRITICAL otherwise, whatever
`days_till_exp_warn` is; the line is "Certificate '{cn}' expires in {N} {unit}
({timestamp})." with `hours` and `N = time_left / 3600` when `time_left >= 3600`, and
`minutes` and `N = time_left / 60` when `time_left < 3600`. -/
theorem C4_expires_today (cn timestamp : String) (time_left warn crit : Int)
    (hpos : 0 < time_left) (hday : time_left < 86400) :
    days_of time_left = 0
    ∧ verdict cn timestamp time_left (days_of time_left) warn crit
        = (if 0 > crit then STATE_WARNING else STATE_CRITICAL,
           if time_left ≥ 3600 then
             "Certificate '" ++ cn ++ "' expires in " ++ fmt_d (time_left / 3600) ++ " "
               ++ "hours" ++ " (" ++ timestamp ++ ")."
           else
             "Certificate '" ++ cn ++ "' expires in " ++ fmt_d (time_left / 60) ++ " "
               ++ "minutes" ++ " (" ++ timestamp ++ ").")
    ∧ ∀ (b : Build) (O : OpenSSL) (L : Libc) (m : Module) (env : Env) (cert : X509)
        (subj : X509_NAME) (stamp : tm),
        b.USE_OPENSSL = true → O.SSL_get_peer_certificate m.s = some cert →
        cert.subject = some subj → decode_stamp cert.notAfter = Decoded.value stamp →
        L.timegm stamp - env.time = time_left → display_name subj = cn →
        L.strftime (some "GMT") (L.timegm stamp) = timestamp →
        np_net_ssl_check_cert b O L m env warn crit
          = Outcome.returned
              { status := if 0 > crit then STATE_WARNING else STATE_CRITICAL,
                line :=
                  if time_left ≥ 3600 then
                    "Certificate '" ++ cn ++ "' expires in " ++ fmt_d (time_left / 3600) ++ " "
                      ++ "hours" ++ " (" ++ timestamp ++ ")."
                  else
                    "Certificate '" ++ cn ++ "' expires in " ++ fmt_d (time_left / 60) ++ " "
                      ++ "minutes" ++ " (" ++ timestamp ++ ").",
                TZ := env.TZ } := by
  have hd0 : days_of time_left = 0 := days_of_eq_zero (le_of_lt hpos) hday
  have hv : verdict cn timestamp time_left (days_of time_left) warn crit
        = (if 0 > crit then STATE_WARNING else STATE_CRITICAL,
           if time_left ≥ 3600 then
             "Certificate '" ++ cn ++ "' expires in " ++ fmt_d (time_left / 3600) ++ " "
               ++ "hours" ++ " (" ++ timestamp ++ ")."
           else
             "Certificate '" ++ cn ++ "' expires in " ++ fmt_d (time_left / 60) ++ " "
               ++ "minutes" ++ " (" ++ timestamp ++ ").") := by
    unfold verdict print_singleline_return
    rw [hd0, if_neg (fun h => absurd h.1 (lt_irrefl 0)), if_pos ⟨rfl, hpos⟩]
    by_cases h36 : time_left ≥ 3600
    · simp only [if_pos h36]
      rw [fmt_u_tdiv (le_of_lt hpos) hday (by norm_num)]
    · simp only [if_neg h36]
      rw [fmt_u_tdiv (le_of_lt hpos) hday (by norm_num)]
  refine ⟨hd0, hv, ?_⟩
  intro b O L m env cert subj stamp hb hc hs hd ht hn hts
  rw [check_cert_of_stamp b O L m env warn crit cert subj stamp hb hc hs hd, ht, hn, hts, hv]

/-- C4, the scenario of the specification: clock 2024-01-10T00:00:00Z, not-after
2024-01-10T00:30:00Z: 1800 seconds are left and the line says 30 minutes. -/
theorem C4_expires_today_witness :
    ((0 : Int) < 1800 ∧ (1800 : Int) < 86400)
    ∧ np_net_ssl_check_cert example_build
        (example_openssl (some (example_cert "example.org" "240110003000Z")))
        example_libc Module.initial ⟨none, 1704844800⟩ 10 3
      = Outcome.returned
          { status := STATE_CRITICAL,
            line := "Certificate 'example.org' expires in 30 minutes (1704846600 +0000).",
            TZ := none } :=
  ⟨by decide,
    ((C4_expires_today "example.org" "1704846600 +0000" 1800 10 3 (by decide)
        (by decide)).2.2 example_build
      (example_openssl (some (example_cert "example.org" "240110003000Z")))
      example_libc Module.initial ⟨none, 1704844800⟩
      (example_cert "example.org" "240110003000Z") ⟨some "example.org"⟩
      ⟨124, 0, 10, 0, 30, 0, -1⟩ (by decide) (by decide) (by decide) (by decide) (by decide)
      (by decide) (by decide)).trans (by decide)⟩

/-- C5, at the failing inputs: a UTCTime not-after of 10 bytes and a GeneralizedTime
not-after of 12 bytes pass the length check of lines 223 and 232, the year is decoded,
and the decoder then reads `data[10]` (respectively `data[12]`), an index that is not
below `length`. -/
theorem C5_length_check_admits_read_outside :
    (¬ (ASN1_STRING.mk V_ASN1_UTCTIME (bytes "2401150000")).length < 10
      ∧ decode_year (ASN1_STRING.mk V_ASN1_UTCTIME (bytes "2401150000"))
          = Decoded.value (124, 0)
      ∧ decode_stamp (ASN1_STRING.mk V_ASN1_UTCTIME (bytes "2401150000"))
          = Decoded.outside 10
      ∧ ¬ 10 < (ASN1_STRING.mk V_ASN1_UTCTIME (bytes "2401150000")).length)
    ∧ (¬ (ASN1_STRING.mk V_ASN1_GENERALIZEDTIME (bytes "202401150000")).length < 12
      ∧ decode_year (ASN1_STRING.mk V_ASN1_GENERALIZEDTIME (bytes "202401150000"))
          = Decoded.value (124, 2)
      ∧ decode_stamp (ASN1_STRING.mk V_ASN1_GENERALIZEDTIME (bytes "202401150000"))
          = Decoded.outside 12
      ∧ ¬ 12 < (ASN1_STRING.mk V_ASN1_GENERALIZEDTIME (bytes "202401150000")).length)
    ∧ np_net_ssl_check_cert example_build
        (example_openssl (some (example_cert "example.org" "2401150000")))
        example_libc Module.initial ⟨none, 1704844800⟩ 10 3
      = Outcome.undefined_read 10 := by
  decide

/-- C6: the decoder ends with "Wrong time format in certificate." exactly when the
not-after string is UTCTime with `length < 10` or of another type with `length < 12`;
the check comes first, in the year step, so no field is computed; and a call of
`np_net_ssl_check_cert` on a certificate with a subject returns CRITICAL with that
line exactly in that case. -/
theorem C6_wrong_time_format (a : ASN1_STRING) :
    (decode_year a = Decoded.wrong_time_format
      ↔ (a.type = V_ASN1_UTCTIME ∧ a.length < 10)
        ∨ (a.type ≠ V_ASN1_UTCTIME ∧ a.length < 12))
    ∧ (decode_stamp a = Decoded.wrong_time_format
      ↔ (a.type = V_ASN1_UTCTIME ∧ a.length < 10)
        ∨ (a.type ≠ V_ASN1_UTCTIME ∧ a.length < 12))
    ∧ ∀ (b : Build) (O : OpenSSL) (L : Libc) (m : Module) (env : Env) (warn crit : Int)
        (cert : X509) (subj : X509_NAME),
        b.USE_OPENSSL = true → O.SSL_get_peer_certificate m.s = some cert →
        cert.subject = some subj → cert.notAfter = a →
        (np_net_ssl_check_cert b O L m env warn crit
            = Outcome.returned
                { status := STATE_CRITICAL, line := "Wrong time format in certificate.",
                  TZ := env.TZ }
          ↔ (a.type = V_ASN1_UTCTIME ∧ a.length < 10)
            ∨ (a.type ≠ V_ASN1_UTCTIME ∧ a.length < 12)) := by
  refine ⟨decode_year_wrong_iff a, decode_stamp_wrong_iff a, ?_⟩
  intro b O L m env warn crit cert subj hb hc hs ha
  rw [← decode_stamp_wrong_iff a]
  subst ha
  cases hd : decode_stamp cert.notAfter with
  | wrong_time_format =>
    simp only [np_net_ssl_check_cert, hb, hc, hs, hd, print_singleline_return, if_true]
  | outside i =>
    simp only [np_net_ssl_check_cert, hb, hc, hs, hd, if_true]
    constructor
    · intro h; cases h
    · intro h; cases h
  | value stamp =>
    rw [check_cert_of_stamp b O L m env warn crit cert subj stamp hb hc hs hd]
    constructor
    · intro h
      simp only [Outcome.returned.injEq, Checked.mk.injEq] at h
      exact absurd h.2.1 (verdict_line_ne _ _ _ _ _ _)
    · intro h; cases h

/-- C6, the scenario of the specification: a UTCTime not-after of 8 digits is rejected
with CRITICAL "Wrong time format in certificate.". -/
theorem C6_wrong_time_format_witness :
    np_net_ssl_check_cert example_build
        (example_openssl (some (example_cert "example.org" "24011500")))
        example_libc Module.initial ⟨none, 1704844800⟩ 10 3
      = Outcome.returned
          { status := STATE_CRITICAL, line := "Wrong time format in certificate.",
            TZ := none } :=
  ((C6_wrong_time_format (ASN1_STRING.mk V_ASN1_UTCTIME (bytes "24011500"))).2.2
      example_build (example_openssl (some (example_cert "example.org" "24011500")))
      example_libc Module.initial ⟨none, 1704844800⟩ 10 3
      (example_cert "example.org" "24011500") ⟨some "example.org"⟩
      (by decide) (by decide) (by decide) (by decide)).mpr (Or.inl (by decide))

/-- C7: for a UTCTime not-after whose first two bytes are the decimal digits `n0` and
`n1`, with `yy = 10 * n0 + n1`, the decoded `tm_year` is `yy + 100` when `yy < 50` and
`yy` otherwise: the year step computes it as soon as the length check passes, a string
of 12 bytes or more decodes to a stamp with it, and every decoded stamp has it, so that
the year `1900 + tm_year` lies in 1950..2049. -/
theorem C7_two_digit_year_pivot (n0 n1 : Nat) (rest : List Nat) (h0 : n0 ≤ 9)
    (h1 : n1 ≤ 9) :
    (10 ≤ rest.length + 2 →
      decode_year (ASN1_STRING.mk V_ASN1_UTCTIME ((48 + n0) :: (48 + n1) :: rest))
        = Decoded.value
            (if 10 * (n0 : Int) + n1 < 50 then 10 * (n0 : Int) + n1 + 100
             else 10 * (n0 : Int) + n1, 0))
    ∧ (12 ≤ rest.length + 2 →
      ∃ stamp : tm,
        decode_stamp (ASN1_STRING.mk V_ASN1_UTCTIME ((48 + n0) :: (48 + n1) :: rest))
          = Decoded.value stamp
        ∧ stamp.tm_year
          = if 10 * (n0 : Int) + n1 < 50 then 10 * (n0 : Int) + n1 + 100
            else 10 * (n0 : Int) + n1)
    ∧ ∀ stamp : tm,
        decode_stamp (ASN1_STRING.mk V_ASN1_UTCTIME ((48 + n0) :: (48 + n1) :: rest))
          = Decoded.value stamp →
        stamp.tm_year
            = (if 10 * (n0 : Int) + n1 < 50 then 10 * (n0 : Int) + n1 + 100
               else 10 * (n0 : Int) + n1)
          ∧ 1950 ≤ 1900 + stamp.tm_year ∧ 1900 + stamp.tm_year ≤ 2049 := by
  have hy : 10 ≤ rest.length + 2 →
      decode_year (ASN1_STRING.mk V_ASN1_UTCTIME ((48 + n0) :: (48 + n1) :: rest))
        = Decoded.value
            (if 10 * (n0 : Int) + n1 < 50 then 10 * (n0 : Int) + n1 + 100
             else 10 * (n0 : Int) + n1, 0) := by
    intro hl
    rw [decode_year_utctime rfl (by simp only [ASN1_STRING.length, List.length_cons]; omega)]
    have e : (((((48 + n0) :: (48 + n1) :: rest).getD 0 0 : Nat) : Int) - 48) * 10
        + (((((48 + n0) :: (48 + n1) :: rest).getD 1 0 : Nat) : Int) - 48)
        = 10 * (n0 : Int) + n1 := by
      simp only [List.getD_cons_zero, List.getD_cons_succ]
      push_cast
      ring
    simp only [e]
  refine ⟨hy, ?_, ?_⟩
  · intro hl
    unfold decode_stamp
    rw [hy (by omega)]
    exact decode_fields_of_lt _ (by simp only [ASN1_STRING.length, List.length_cons]; omega)
  · intro stamp hs
    unfold decode_stamp at hs
    obtain ⟨yo, hyo, hf⟩ := bind_eq_value hs
    have hl : 10 ≤ rest.length + 2 := by
      by_contra hc
      have hw := (decode_year_wrong_iff
        (ASN1_STRING.mk V_ASN1_UTCTIME ((48 + n0) :: (48 + n1) :: rest))).mpr
        (Or.inl ⟨rfl, by simp only [ASN1_STRING.length, List.length_cons]; omega⟩)
      rw [hw] at hyo
      cases hyo
    rw [hy hl] at hyo
    cases hyo
    have hty := decode_fields_year hf
    rw [hty]
    refine ⟨rfl, ?_, ?_⟩ <;> split_ifs <;> omega

/-- C7, the pivot of the specification: the digits "49" decode to 149 (year 2049) and
the digits "50" to 50 (year 1950). -/
theorem C7_two_digit_year_pivot_witness :
    decode_year (ASN1_STRING.mk V_ASN1_UTCTIME (bytes "491231235959Z"))
        = Decoded.value (149, 0)
    ∧ decode_year (ASN1_STRING.mk V_ASN1_UTCTIME (bytes "500101000000Z"))
        = Decoded.value (50, 0) :=
  ⟨(C7_two_digit_year_pivot 4 9 (bytes "1231235959Z") (by decide) (by decide)).1
      (by decide),
   (C7_two_digit_year_pivot 5 0 (bytes "0101000000Z") (by decide) (by decide)).1
      (by decide)⟩

/-- C8: a calendar moment with month in 1..12, day in 1..31, hour in 0..23, minute
and second in 0..59, written as the 12 decimal digits `YYMMDDhhmmss` (year in
1950..2049) and decoded as UTCTime, or written as the 14 decimal digits
`YYYYMMDDhhmmss` (year in 0..9999) and decoded as any other type, decodes to
`tm_year = year - 1900`, `tm_mon = month - 1` and the other fields unchanged; bytes
after the digits (`rest`) play no role; and a call of `np_net_ssl_check_cert` has the
same outcome on the two encodings of one moment. -/
theorem C8_round_trip (year month day hour minute second : Nat) (rest rest2 : List Nat)
    (type : Int) (ht : type ≠ V_ASN1_UTCTIME) (hmo : 1 ≤ month ∧ month ≤ 12)
    (hd : 1 ≤ day ∧ day ≤ 31) (hh : hour ≤ 23) (hmi : minute ≤ 59) (hs : second ≤ 59) :
    (1950 ≤ year ∧ year ≤ 2049 →
      ((encode_two_digit_year year month day hour minute second).length = 12
        ∧ ∀ x ∈ encode_two_digit_year year month day hour minute second, 48 ≤ x ∧ x ≤ 57)
      ∧ decode_stamp (ASN1_STRING.mk V_ASN1_UTCTIME
            (encode_two_digit_year year month day hour minute second ++ rest))
          = Decoded.value
              { tm_year := (year : Int) - 1900, tm_mon := (month : Int) - 1, tm_mday := day,
                tm_hour := hour, tm_min := minute, tm_sec := second, tm_isdst := -1 })
    ∧ (year ≤ 9999 →
      ((encode_four_digit_year year month day hour minute second).length = 14
        ∧ ∀ x ∈ encode_four_digit_year year month day hour minute second, 48 ≤ x ∧ x ≤ 57)
      ∧ decode_stamp (ASN1_STRING.mk type
            (encode_four_digit_year year month day hour minute second ++ rest2))
          = Decoded.value
              { tm_year := (year : Int) - 1900, tm_mon := (month : Int) - 1, tm_mday := day,
                tm_hour := hour, tm_min := minute, tm_sec := second, tm_isdst := -1 })
    ∧ (1950 ≤ year ∧ year ≤ 2049 →
      ∀ (b : Build) (O O2 : OpenSSL) (L : Libc) (m : Module) (env : Env) (warn crit : Int)
        (subject : Option X509_NAME),
        O.SSL_get_peer_certificate m.s
          = some (X509.mk subject (ASN1_STRING.mk V_ASN1_UTCTIME
              (encode_two_digit_year year month day hour minute second ++ rest))) →
        O2.SSL_get_peer_certificate m.s
          = some (X509.mk subject (ASN1_STRING.mk type
              (encode_four_digit_year year month day hour minute second ++ rest2))) →
        np_net_ssl_check_cert b O L m env warn crit
          = np_net_ssl_check_cert b O2 L m env warn crit) := by
  have hf := encode_fields_are_digits month day hour minute second (by omega) (by omega)
    (by omega) (by omega) (by omega)
  refine ⟨fun hy => ⟨⟨?_, ?_⟩, decode_stamp_two_digit_year year month day hour minute second
    rest hy⟩, fun hy => ⟨⟨?_, ?_⟩, decode_stamp_four_digit_year type year month day hour
    minute second rest2 ht⟩, ?_⟩
  · simp [encode_two_digit_year, encode_fields, two_digits]
  · intro x hx
    simp only [encode_two_digit_year, List.mem_append] at hx
    rcases hx with hx | hx
    · exact two_digits_are_digits _ (by omega) x hx
    · exact hf x hx
  · simp [encode_four_digit_year, encode_fields, two_digits]
  · intro x hx
    simp only [encode_four_digit_year, List.mem_append] at hx
    rcases hx with (hx | hx) | hx
    · exact two_digits_are_digits _ (by omega) x hx
    · exact two_digits_are_digits _ (by omega) x hx
    · exact hf x hx
  · intro hy b O O2 L m env warn crit subject hc hc2
    refine check_cert_congr b O O2 L m env warn crit _ _ hc hc2 rfl ?_
    show decode_stamp (ASN1_STRING.mk V_ASN1_UTCTIME _) = decode_stamp (ASN1_STRING.mk type _)
    rw [decode_stamp_two_digit_year year month day hour minute second rest hy,
      decode_stamp_four_digit_year type year month day hour minute second rest2 ht]

/-- C8 at 2024-01-15T00:00:00Z: the UTCTime text "240115000000Z" and the
GeneralizedTime text "20240115000000Z" decode to the same stamp. -/
theorem C8_round_trip_witness :
    decode_stamp (ASN1_STRING.mk V_ASN1_UTCTIME (bytes "240115000000Z"))
        = Decoded.value
            { tm_year := 124, tm_mon := 0, tm_mday := 15, tm_hour := 0, tm_min := 0,
              tm_sec := 0, tm_isdst := -1 }
    ∧ decode_stamp (ASN1_STRING.mk V_ASN1_GENERALIZEDTIME (bytes "20240115000000Z"))
        = Decoded.value
            { tm_year := 124, tm_mon := 0, tm_mday := 15, tm_hour := 0, tm_min := 0,
              tm_sec := 0, tm_isdst := -1 } :=
  ⟨((C8_round_trip 2024 1 15 0 0 0 (bytes "Z") (bytes "Z") V_ASN1_GENERALIZEDTIME
      (by decide) (by decide) (by decide) (by decide) (by decide) (by decide)).1
      (by decide)).2,
   ((C8_round_trip 2024 1 15 0 0 0 (bytes "Z") (bytes "Z") V_ASN1_GENERALIZEDTIME
      (by decide) (by decide) (by decide) (by decide) (by decide) (by decide)).2.1
      (by decide)).2⟩

/-- C9, as stated, fails: for a certificate without a subject (`X509_get_subject_name`
is `NULL`) the call returns CRITICAL "Cannot retrieve certificate subject." and no
verdict, while the same not-after under a subject without common name gives the
WARNING verdict with the name "Unknown CN". -/
theorem C9_no_subject_is_fatal :
    np_net_ssl_check_cert example_build
        (example_openssl (some (X509.mk none
          (ASN1_STRING.mk V_ASN1_UTCTIME (bytes "240115000000Z")))))
        example_libc Module.initial ⟨none, 1704844800⟩ 10 3
      = Outcome.returned
          { status := STATE_CRITICAL, line := "Cannot retrieve certificate subject.",
            TZ := none }
    ∧ np_net_ssl_check_cert example_build
        (example_openssl (some (X509.mk (some (X509_NAME.mk none))
          (ASN1_STRING.mk V_ASN1_UTCTIME (bytes "240115000000Z")))))
        example_libc Module.initial ⟨none, 1704844800⟩ 10 3
      = Outcome.returned
          { status := STATE_WARNING,
            line := "Certificate 'Unknown CN' expires in 5 day(s) (1705276800 +0000).",
            TZ := none } := by
  decide

/-- C9, amended: a certificate without a subject makes the call return CRITICAL
"Cannot retrieve certificate subject." whatever the not-after is; a certificate
whose subject has no common name does not fail for that: its display name is
"Unknown CN", the outcome is the one of the same certificate with the common name
"Unknown CN", and when the not-after decodes it is a verdict of the branch chain
under that name: the one at the difference to the clock when the `float` of line 255
holds that difference exactly. -/
theorem C9_subject_and_common_name (b : Build) (O : OpenSSL) (L : Libc) (m : Module)
    (env : Env) (warn crit : Int) (cert : X509) (hb : b.USE_OPENSSL = true)
    (hc : O.SSL_get_peer_certificate m.s = some cert) :
    (cert.subject = none →
      np_net_ssl_check_cert b O L m env warn crit
        = Outcome.returned
            { status := STATE_CRITICAL, line := "Cannot retrieve certificate subject.",
              TZ := env.TZ })
    ∧ ∀ subj : X509_NAME, cert.subject = some subj → subj.commonName = none →
        display_name subj = "Unknown CN"
        ∧ (∀ O2 : OpenSSL,
            O2.SSL_get_peer_certificate m.s
              = some (X509.mk (some (X509_NAME.mk (some "Unknown CN"))) cert.notAfter) →
            np_net_ssl_check_cert b O L m env warn crit
              = np_net_ssl_check_cert b O2 L m env warn crit)
        ∧ (∀ stamp : tm, decode_stamp cert.notAfter = Decoded.value stamp →
            ∃ time_left days_left : Int,
              np_net_ssl_check_cert b O L m env warn crit
                = Outcome.returned
                    { status := (verdict "Unknown CN"
                        (L.strftime (some "GMT") (L.timegm stamp)) time_left days_left
                        warn crit).1,
                      line := (verdict "Unknown CN"
                        (L.strftime (some "GMT") (L.timegm stamp)) time_left days_left
                        warn crit).2,
                      TZ := env.TZ })
        ∧ ∀ stamp : tm, decode_stamp cert.notAfter = Decoded.value stamp →
            float_exact (L.timegm stamp - env.time) →
            np_net_ssl_check_cert b O L m env warn crit
              = Outcome.returned
                  { status := (verdict "Unknown CN" (L.strftime (some "GMT") (L.timegm stamp))
                      (L.timegm stamp - env.time) (days_of (L.timegm stamp - env.time))
                      warn crit).1,
                    line := (verdict "Unknown CN" (L.strftime (some "GMT") (L.timegm stamp))
                      (L.timegm stamp - env.time) (days_of (L.timegm stamp - env.time))
                      warn crit).2,
                    TZ := env.TZ } := by
  constructor
  · intro hs
    simp only [np_net_ssl_check_cert, hb, hc, hs, print_singleline_return, if_true]
  · intro subj hs hn
    have hdn : display_name subj = "Unknown CN" := by
      unfold display_name
      rw [hn]
    refine ⟨hdn, ?_, ?_, ?_⟩
    · intro O2 hc2
      unfold np_net_ssl_check_cert
      rw [hc, hc2]
      simp only [hs, hdn]
      rfl
    · intro stamp hd
      refine ⟨L.timegm stamp - env.time, days_of (L.timegm stamp - env.time), ?_⟩
      rw [check_cert_of_stamp b O L m env warn crit cert subj stamp hb hc hs hd, hdn]
    · intro stamp hd _
      rw [check_cert_of_stamp b O L m env warn crit cert subj stamp hb hc hs hd, hdn]

/-- C9, amended, at a certificate whose subject has no common name: clock
2024-01-10T00:00:00Z, not-after 2024-01-15T00:00:00Z. -/
theorem C9_subject_and_common_name_witness :
    np_net_ssl_check_cert example_build
        (example_openssl (some (X509.mk (some (X509_NAME.mk none))
          (ASN1_STRING.mk V_ASN1_UTCTIME (bytes "240115000000Z")))))
        example_libc Module.initial ⟨none, 1704844800⟩ 10 3
      = Outcome.returned
          { status := STATE_WARNING,
            line := "Certificate 'Unknown CN' expires in 5 day(s) (1705276800 +0000).",
            TZ := none } :=
  (((C9_subject_and_common_name example_build
      (example_openssl (some (X509.mk (some (X509_NAME.mk none))
        (ASN1_STRING.mk V_ASN1_UTCTIME (bytes "240115000000Z")))))
      example_libc Module.initial ⟨none, 1704844800⟩ 10 3
      (X509.mk (some (X509_NAME.mk none))
        (ASN1_STRING.mk V_ASN1_UTCTIME (bytes "240115000000Z")))
      (by decide) (by decide)).2 (X509_NAME.mk none) (by decide) (by decide)).2.2.2
      ⟨124, 0, 15, 0, 0, 0, -1⟩ (by decide) (by decide)).trans (by decide)

/-- C10: for each direct request (SSLv2, SSLv3, TLSv1.0, TLSv1.1, TLSv1.2) and every
build: if the build has the protocol, the switch selects exactly the method of that
protocol with the option mask `0`, and a context the call creates has that method and
no protocol version disabled; if it has not, the call returns UNKNOWN with the line
that names that protocol, before any context or session is created, and the static
variables `c`, `s` and `initialized` are unchanged. -/
theorem C10_direct_versions (b : Build) (k : Versions) (O : OpenSSL) (m : Module)
    (sd : Int) (host_name : Option String) (cert privkey : Option String)
    (hk : k.distinct) :
    direct_request b k O m sd host_name cert privkey k.MP_SSLv2
        (!(b.USE_GNUTLS || b.OPENSSL_NO_SSL2)) SSL_METHOD.SSLv2_client_method
        "SSL protocol version 2 is not supported by your SSL library."
    ∧ direct_request b k O m sd host_name cert privkey k.MP_SSLv3
        (!b.OPENSSL_NO_SSL3) SSL_METHOD.SSLv3_client_method
        "SSL protocol version 3 is not supported by your SSL library."
    ∧ direct_request b k O m sd host_name cert privkey k.MP_TLSv1
        (!b.OPENSSL_NO_TLS1) SSL_METHOD.TLSv1_client_method
        "TLS protocol version 1 is not supported by your SSL library."
    ∧ direct_request b k O m sd host_name cert privkey k.MP_TLSv1_1
        b.SSL_OP_NO_TLSv1_1 SSL_METHOD.TLSv1_1_client_method
        "TLS protocol version 1.1 is not supported by your SSL library."
    ∧ direct_request b k O m sd host_name cert privkey k.MP_TLSv1_2
        b.SSL_OP_NO_TLSv1_2 SSL_METHOD.TLSv1_2_client_method
        "TLS protocol version 1.2 is not supported by your SSL library." := by
  obtain ⟨h2, h3, h1, h11, h12⟩ := version_switch_direct b k hk
  refine ⟨direct_request_of_switch b k O m sd host_name cert privkey _ _ _ _ h2,
    direct_request_of_switch b k O m sd host_name cert privkey _ _ _ _ h3,
    direct_request_of_switch b k O m sd host_name cert privkey _ _ _ _ h1, ?_, ?_⟩
  · have h := direct_request_of_switch b k O m sd host_name cert privkey _ _ _ _ h11
    rwa [Bool.not_not] at h
  · have h := direct_request_of_switch b k O m sd host_name cert privkey _ _ _ _ h12
    rwa [Bool.not_not] at h

/-- C10 at a build without SSLv2 and without TLSv1.2: both requests return UNKNOWN
with the line of their protocol and leave the static variables as they were, and a
TLSv1.1 request selects `TLSv1_1_client_method`. -/
theorem C10_direct_versions_witness :
    example_versions.distinct
    ∧ np_net_ssl_init_with_hostname_version_and_cert example_build_old example_versions
        (example_openssl none) Module.initial 3 (some "example.org") 1 none none
      = ((STATE_UNKNOWN,
          some "SSL protocol version 2 is not supported by your SSL library."),
         Module.initial)
    ∧ np_net_ssl_init_with_hostname_version_and_cert example_build_old example_versions
        (example_openssl none) Module.initial 3 (some "example.org") 5 none none
      = ((STATE_UNKNOWN,
          some "TLS protocol version 1.2 is not supported by your SSL library."),
         Module.initial)
    ∧ version_switch example_build_old example_versions 4
      = Except.ok (SSL_METHOD.TLSv1_1_client_method, Options.zero) :=
  ⟨by decide,
   ((C10_direct_versions example_build_old example_versions (example_openssl none)
      Module.initial 3 (some "example.org") none none (by decide)).1.2 (by decide)).2,
   ((C10_direct_versions example_build_old example_versions (example_openssl none)
      Module.initial 3 (some "example.org") none none (by decide)).2.2.2.2.2 (by decide)).2,
   ((C10_direct_versions example_build_old example_versions (example_openssl none)
      Module.initial 3 (some "example.org") none none (by decide)).2.2.2.1.1 (by decide)).1⟩

/-- C11, as stated, fails: on a build that does not define `SSL_OP_NO_SSLv3` the
requests "TLSv1.0 or newer" and "TLSv1.2 or newer" resolve without an error, and SSLv3,
older than both floors, is not in the disabled set. -/
theorem C11_sslv3_left_enabled :
    example_build_no_sslv3.can_disable Protocol.SSLv3 = false
    ∧ version_switch example_build_no_sslv3 example_versions
        (example_versions.or_newer Protocol.TLSv1)
      = Except.ok (SSL_METHOD.SSLv23_client_method,
          { NO_SSLv2 := true, NO_SSLv3 := false, NO_TLSv1 := false, NO_TLSv1_1 := false,
            NO_TICKET := false })
    ∧ version_switch example_build_no_sslv3 example_versions
        (example_versions.or_newer Protocol.TLSv1_2)
      = Except.ok (SSL_METHOD.SSLv23_client_method,
          { NO_SSLv2 := true, NO_SSLv3 := false, NO_TLSv1 := true, NO_TLSv1_1 := true,
            NO_TICKET := false }) :=
  ⟨rfl, rfl, rfl⟩

/-- C11, amended: for a request "`X` or newer" with `X` among SSLv3, TLSv1.0, TLSv1.1 and
TLSv1.2.  When the switch succeeds, the method is `SSLv23_client_method`, a protocol
older than `X` is in the disabled set exactly when the build defines its
`SSL_OP_NO_*` option, and TLSv1.0 and TLSv1.1 are in it whenever they are older than
`X`.  The switch returns UNKNOWN "Disabling TLSv1.1 ..." when TLSv1.1 is older than `X`
and its option is missing, and UNKNOWN "Disabling TLSv1 ..." when TLSv1.0 is older
than `X`, its option is missing and the one of TLSv1.1 is not.  It succeeds whenever
the options of the TLS versions older than `X` are defined, whatever the build says of
SSLv3 and SSLv2. -/
theorem C11_or_newer_cascade (b : Build) (k : Versions) (X : Protocol) (hk : k.distinct)
    (hX : X ≠ Protocol.SSLv2) :
    (∀ (method : SSL_METHOD) (options : Options),
        version_switch b k (k.or_newer X) = Except.ok (method, options) →
        method = SSL_METHOD.SSLv23_client_method
        ∧ (∀ p : Protocol, p.rank < X.rank → options.disables p = b.can_disable p)
        ∧ (∀ p : Protocol, p.rank < X.rank → Protocol.TLSv1.rank ≤ p.rank →
            options.disables p = true))
    ∧ (Protocol.TLSv1_1.rank < X.rank → b.can_disable Protocol.TLSv1_1 = false →
        version_switch b k (k.or_newer X)
          = Except.error (STATE_UNKNOWN,
              "Disabling TLSv1.1 is not supported by your SSL library."))
    ∧ (Protocol.TLSv1.rank < X.rank → b.can_disable Protocol.TLSv1 = false →
        (Protocol.TLSv1_1.rank < X.rank → b.can_disable Protocol.TLSv1_1 = true) →
        version_switch b k (k.or_newer X)
          = Except.error (STATE_UNKNOWN,
              "Disabling TLSv1 is not supported by your SSL library."))
    ∧ ((∀ p : Protocol, p.rank < X.rank → Protocol.TLSv1.rank ≤ p.rank →
          b.can_disable p = true) →
        ∃ options : Options,
          version_switch b k (k.or_newer X)
            = Except.ok (SSL_METHOD.SSLv23_client_method, options)) := by
  obtain ⟨-, e3, e1, e11, e12⟩ := version_switch_or_newer b k hk
  cases X with
  | SSLv2 => exact absurd rfl hX
  | SSLv3 =>
    simp only [Versions.or_newer, e3]
    refine ⟨?_, ?_, ?_, ?_⟩
    · intro method options h
      cases h
      refine ⟨rfl, ?_, ?_⟩ <;> intro p <;> cases p <;>
        simp [Protocol.rank, Options.disables, Build.can_disable, Options.zero]
    · simp [Protocol.rank]
    · simp [Protocol.rank]
    · intro _; exact ⟨_, rfl⟩
  | TLSv1 =>
    simp only [Versions.or_newer, e1]
    refine ⟨?_, ?_, ?_, ?_⟩
    · intro method options h
      cases h
      refine ⟨rfl, ?_, ?_⟩ <;> intro p <;> cases p <;>
        simp [Protocol.rank, Options.disables, Build.can_disable, Options.zero]
    · simp [Protocol.rank]
    · simp [Protocol.rank]
    · intro _; exact ⟨_, rfl⟩
  | TLSv1_1 =>
    simp only [Versions.or_newer, e11]
    refine ⟨?_, ?_, ?_, ?_⟩
    · intro method options h
      cases ht : b.SSL_OP_NO_TLSv1
      · simp [ht] at h
      · simp only [ht, Bool.not_true, Bool.false_eq_true, if_false] at h
        cases h
        refine ⟨rfl, ?_, ?_⟩ <;> intro p <;> cases p <;>
          simp [Protocol.rank, Options.disables, Build.can_disable, Options.zero, ht]
    · simp [Protocol.rank]
    · intro _ ht _
      simp only [Build.can_disable] at ht
      simp [ht]
    · intro h
      have ht := h Protocol.TLSv1 (by decide) (by decide)
      simp only [Build.can_disable] at ht
      exact ⟨Options.mk b.SSL_OP_NO_SSLv2 b.SSL_OP_NO_SSLv3 true false false, by rw [ht]; rfl⟩
  | TLSv1_2 =>
    simp only [Versions.or_newer, e12]
    refine ⟨?_, ?_, ?_, ?_⟩
    · intro method options h
      cases ht1 : b.SSL_OP_NO_TLSv1_1
      · simp [ht1] at h
      · cases ht : b.SSL_OP_NO_TLSv1
        · simp [ht1, ht] at h
        · simp only [ht1, ht, Bool.not_true, Bool.false_eq_true, if_false] at h
          cases h
          refine ⟨rfl, ?_, ?_⟩ <;> intro p <;> cases p <;>
            simp [Protocol.rank, Options.disables, Build.can_disable, Options.zero, ht, ht1]
    · intro _ ht1
      simp only [Build.can_disable] at ht1
      simp [ht1]
    · intro _ ht ht1
      have ht1 := ht1 (by decide)
      simp only [Build.can_disable] at ht ht1
      simp [ht, ht1]
    · intro h
      have ht := h Protocol.TLSv1 (by decide) (by decide)
      have ht1 := h Protocol.TLSv1_1 (by decide) (by decide)
      simp only [Build.can_disable] at ht ht1
      exact ⟨Options.mk b.SSL_OP_NO_SSLv2 b.SSL_OP_NO_SSLv3 true true false,
        by rw [ht, ht1]; rfl⟩

/-- C11, amended, at "TLSv1.2 or newer": on the example build, which defines the four
options, the switch disables TLSv1.1, TLSv1.0, SSLv3 and SSLv2; on a build without
`SSL_OP_NO_TLSv1_1` it returns UNKNOWN "Disabling TLSv1.1 ...". -/
theorem C11_or_newer_cascade_witness :
    (example_versions.distinct ∧ Protocol.TLSv1_2 ≠ Protocol.SSLv2)
    ∧ version_switch example_build example_versions
        (example_versions.or_newer Protocol.TLSv1_2)
      = Except.ok (SSL_METHOD.SSLv23_client_method,
          { NO_SSLv2 := true, NO_SSLv3 := true, NO_TLSv1 := true, NO_TLSv1_1 := true,
            NO_TICKET := false })
    ∧ (∀ p : Protocol, p.rank < Protocol.TLSv1_2.rank →
        (Options.mk true true true true false).disables p = example_build.can_disable p)
    ∧ version_switch { example_build with SSL_OP_NO_TLSv1_1 := false } example_versions
        (example_versions.or_newer Protocol.TLSv1_2)
      = Except.error (STATE_UNKNOWN,
          "Disabling TLSv1.1 is not supported by your SSL library.") :=
  ⟨by decide, rfl,
   ((C11_or_newer_cascade example_build example_versions Protocol.TLSv1_2 (by decide)
      (by decide)).1 SSL_METHOD.SSLv23_client_method
      { NO_SSLv2 := true, NO_SSLv3 := true, NO_TLSv1 := true, NO_TLSv1_1 := true,
        NO_TICKET := false } rfl).2.1,
   (C11_or_newer_cascade { example_build with SSL_OP_NO_TLSv1_1 := false } example_versions
      Protocol.TLSv1_2 (by decide) (by decide)).2.1 (by decide) (by decide)⟩

/-- C12: for a `version` that is none of the case labels (such as the `0` that
`np_net_ssl_init` passes, when no label is `0`) or that is `MP_SSLv2_OR_NEWER`, and for
every build, the switch does not fail: it leaves `SSLv23_client_method` and the mask
`0`, in which no protocol version is disabled; the call does not return UNKNOWN, and a
context it creates has that method and no protocol version disabled. -/
theorem C12_auto_negotiation (b : Build) (k : Versions) (O : OpenSSL) (m : Module)
    (sd : Int) (host_name : Option String) (cert privkey : Option String) (version : Int)
    (hk : k.distinct) (hv : version ∉ k.labels ∨ version = k.MP_SSLv2_OR_NEWER) :
    version_switch b k version = Except.ok (SSL_METHOD.SSLv23_client_method, Options.zero)
    ∧ (∀ p : Protocol, Options.zero.disables p = false)
    ∧ (np_net_ssl_init_with_hostname_version_and_cert b k O m sd host_name version
        cert privkey).1.1 ≠ STATE_UNKNOWN
    ∧ (∀ ctx : SSL_CTX,
        (np_net_ssl_init_with_hostname_version_and_cert b k O m sd host_name version
          cert privkey).2.c = some ctx →
        ctx.method = SSL_METHOD.SSLv23_client_method
          ∧ ∀ p : Protocol, ctx.options.disables p = false)
    ∧ (version = 0 →
        (np_net_ssl_init b k O m sd).1.1 ≠ STATE_UNKNOWN
        ∧ ∀ ctx : SSL_CTX, (np_net_ssl_init b k O m sd).2.c = some ctx →
            ctx.method = SSL_METHOD.SSLv23_client_method
              ∧ ∀ p : Protocol, ctx.options.disables p = false) := by
  have hs : version_switch b k version
      = Except.ok (SSL_METHOD.SSLv23_client_method, Options.zero) := by
    rcases hv with hv | hv
    · exact version_switch_default b k version hv
    · rw [hv]
      exact (version_switch_or_newer b k hk).1
  refine ⟨hs, fun p => by cases p <;> rfl,
    init_status_of_switch_ok b k O m sd host_name version cert privkey _ _ hs,
    fun ctx hc => init_context_plain b k O m sd host_name version cert privkey _ hs ctx hc,
    ?_⟩
  intro h0
  subst h0
  exact ⟨init_status_of_switch_ok b k O m sd none 0 none none _ _ hs,
    fun ctx hc => init_context_plain b k O m sd none 0 none none _ hs ctx hc⟩

/-- C12 at the example codes: the versions `0` (Auto), `6` (SSLv2 or newer) and `99`
(no request) leave `SSLv23_client_method` and the mask `0`, on a build without SSLv2
and TLSv1.2 as well. -/
theorem C12_auto_negotiation_witness :
    (example_versions.distinct ∧ (0 : Int) ∉ example_versions.labels
      ∧ (99 : Int) ∉ example_versions.labels)
    ∧ version_switch example_build_old example_versions 0
        = Except.ok (SSL_METHOD.SSLv23_client_method, Options.zero)
    ∧ version_switch example_build_old example_versions 6
        = Except.ok (SSL_METHOD.SSLv23_client_method, Options.zero)
    ∧ version_switch example_build_old example_versions 99
        = Except.ok (SSL_METHOD.SSLv23_client_method, Options.zero) :=
  ⟨by decide,
   (C12_auto_negotiation example_build_old example_versions (example_openssl none)
      Module.initial 3 none none none 0 (by decide) (Or.inl (by decide))).1,
   (C12_auto_negotiation example_build_old example_versions (example_openssl none)
      Module.initial 3 none none none 6 (by decide) (Or.inr rfl)).1,
   (C12_auto_negotiation example_build_old example_versions (example_openssl none)
      Module.initial 3 none none none 99 (by decide) (Or.inl (by decide))).1⟩

/-- C13: `np_net_ssl_cleanup` is idempotent.  Without a session the call changes
nothing and releases nothing; after any call the session slot is empty; a second call
leaves the state of the first and releases nothing; and over the two calls `SSL_free`
and `SSL_CTX_free` are called at most once each, on the session and the context the
state held. -/
theorem C13_cleanup_idempotent (b : Build) (m : Module) :
    (m.s = none → np_net_ssl_cleanup b m = (m, []))
    ∧ (np_net_ssl_cleanup b m).1.s = none
    ∧ np_net_ssl_cleanup b (np_net_ssl_cleanup b m).1 = ((np_net_ssl_cleanup b m).1, [])
    ∧ (((np_net_ssl_cleanup b m).2
          ++ (np_net_ssl_cleanup b (np_net_ssl_cleanup b m).1).2).filter
        Release.is_SSL_free).length ≤ 1
    ∧ (((np_net_ssl_cleanup b m).2
          ++ (np_net_ssl_cleanup b (np_net_ssl_cleanup b m).1).2).filter
        Release.is_SSL_CTX_free).length ≤ 1
    ∧ (∀ c : SSL_CTX, Release.SSL_CTX_free c ∈ (np_net_ssl_cleanup b m).2 → m.c = some c)
    ∧ (∀ s : SSL, Release.SSL_free s ∈ (np_net_ssl_cleanup b m).2 →
        ∃ s0 : SSL, m.s = some s0 ∧ s.ctx = s0.ctx ∧ s.fd = s0.fd) := by
  obtain ⟨c, s, i⟩ := m
  cases s with
  | none => simp [np_net_ssl_cleanup]
  | some s0 =>
    cases c with
    | none =>
      cases hb : b.SSL_set_tlsext_host_name <;>
        simp [np_net_ssl_cleanup, hb, Release.is_SSL_free, Release.is_SSL_CTX_free]
    | some c0 =>
      cases hb : b.SSL_set_tlsext_host_name <;>
        simp [np_net_ssl_cleanup, hb, Release.is_SSL_free, Release.is_SSL_CTX_free]

/-- C13 before any session is set up: cleanup changes nothing and releases nothing. -/
theorem C13_cleanup_idempotent_witness :
    Module.initial.s = none
    ∧ np_net_ssl_cleanup example_build Module.initial = (Module.initial, []) :=
  ⟨rfl, (C13_cleanup_idempotent example_build Module.initial).1 rfl⟩

/-- C14: for every value of `TZ` (unset or any text) and every input, a call of
`np_net_ssl_check_cert` that returns leaves `TZ` as it was, on every return path; the
call returns unless the decoder reads outside the not-after string, and so for every
not-after of 14 bytes or more; and the timestamp of the line is rendered under
`TZ = "GMT"`, whatever `TZ` was: the line is one of the branch chain with that
timestamp, and it is the line at the difference to the clock when the `float` of
line 255 holds that difference exactly. -/
theorem C14_TZ_restored (b : Build) (O : OpenSSL) (L : Libc) (m : Module) (env : Env)
    (warn crit : Int) :
    (∀ r : Checked, np_net_ssl_check_cert b O L m env warn crit = Outcome.returned r →
        r.TZ = env.TZ)
    ∧ ((∃ r : Checked, np_net_ssl_check_cert b O L m env warn crit = Outcome.returned r
          ∧ r.TZ = env.TZ)
      ∨ ∃ (cert : X509) (i : Nat), O.SSL_get_peer_certificate m.s = some cert
          ∧ decode_stamp cert.notAfter = Decoded.outside i
          ∧ np_net_ssl_check_cert b O L m env warn crit = Outcome.undefined_read i)
    ∧ (∀ cert : X509, O.SSL_get_peer_certificate m.s = some cert →
        14 ≤ cert.notAfter.length →
        ∃ r : Checked, np_net_ssl_check_cert b O L m env warn crit = Outcome.returned r
          ∧ r.TZ = env.TZ)
    ∧ (∀ (cert : X509) (subj : X509_NAME) (stamp : tm), b.USE_OPENSSL = true →
        O.SSL_get_peer_certificate m.s = some cert → cert.subject = some subj →
        decode_stamp cert.notAfter = Decoded.value stamp →
        float_exact (L.timegm stamp - env.time) →
        ∃ status : State,
          np_net_ssl_check_cert b O L m env warn crit
            = Outcome.returned
                { status := status,
                  line := (verdict (display_name subj)
                    (L.strftime (some "GMT") (L.timegm stamp)) (L.timegm stamp - env.time)
                    (days_of (L.timegm stamp - env.time)) warn crit).2,
                  TZ := env.TZ })
    ∧ ∀ (cert : X509) (subj : X509_NAME) (stamp : tm), b.USE_OPENSSL = true →
        O.SSL_get_peer_certificate m.s = some cert → cert.subject = some subj →
        decode_stamp cert.notAfter = Decoded.value stamp →
        ∃ (status : State) (time_left days_left : Int),
          np_net_ssl_check_cert b O L m env warn crit
            = Outcome.returned
                { status := status,
                  line := (verdict (display_name subj)
                    (L.strftime (some "GMT") (L.timegm stamp)) time_left days_left
                    warn crit).2,
                  TZ := env.TZ } := by
  have hcases := check_cert_cases b O L m env warn crit
  refine ⟨?_, ?_, ?_, ?_, ?_⟩
  · intro r hr
    rcases hcases with ⟨status, line, h⟩ | ⟨cert, subj, i, -, -, -, -, h⟩
    · rw [h] at hr
      cases hr
      rfl
    · rw [h] at hr
      cases hr
  · rcases hcases with ⟨status, line, h⟩ | ⟨cert, subj, i, -, hc, -, hd, h⟩
    · exact Or.inl ⟨_, h, rfl⟩
    · exact Or.inr ⟨cert, i, hc, hd, h⟩
  · intro cert hc hl
    rcases hcases with ⟨status, line, h⟩ | ⟨cert2, subj, i, -, hc2, -, hd, h⟩
    · exact ⟨_, h, rfl⟩
    · rw [hc] at hc2
      cases hc2
      obtain ⟨stamp, hs⟩ := decode_stamp_of_length hl
      rw [hs] at hd
      cases hd
  · intro cert subj stamp hb hc hs hd _
    exact ⟨_, check_cert_of_stamp b O L m env warn crit cert subj stamp hb hc hs hd⟩
  · intro cert subj stamp hb hc hs hd
    exact ⟨_, _, _, check_cert_of_stamp b O L m env warn crit cert subj stamp hb hc hs hd⟩

/-- C14 under the ambient zone "Europe/Berlin" and with `TZ` unset: the call returns
with `TZ` as it was. -/
theorem C14_TZ_restored_witness :
    np_net_ssl_check_cert example_build
        (example_openssl (some (example_cert "example.org" "240115000000Z")))
        example_libc Module.initial ⟨some "Europe/Berlin", 1704844800⟩ 10 3
      = Outcome.returned
          { status := STATE_WARNING,
            line := "Certificate 'example.org' expires in 5 day(s) (1705276800 +0000).",
            TZ := some "Europe/Berlin" }
    ∧ (Checked.mk STATE_WARNING
        "Certificate 'example.org' expires in 5 day(s) (1705276800 +0000)."
        (some "Europe/Berlin")).TZ = some "Europe/Berlin"
    ∧ (Checked.mk STATE_CRITICAL "Wrong time format in certificate." none).TZ = none :=
  ⟨by decide,
   (C14_TZ_restored example_build
      (example_openssl (some (example_cert "example.org" "240115000000Z")))
      example_libc Module.initial ⟨some "Europe/Berlin", 1704844800⟩ 10 3).1 _ (by decide),
   (C14_TZ_restored example_build
      (example_openssl (some (example_cert "example.org" "24011500")))
      example_libc Module.initial ⟨none, 1704844800⟩ 10 3).1 _ (by decide)⟩

/-- C16: the line "Certificate '{cn}' just expired ({timestamp})." is produced exactly
when `time_left = 0`, for all thresholds; the status is then WARNING if
`0 > days_till_exp_crit` and CRITICAL otherwise; for the branch chain and for every
call whose certificate decodes and lies `time_left` seconds ahead of the clock. -/
theorem C16_just_expired (cn timestamp : String) (time_left warn crit : Int) :
    ((verdict cn timestamp time_left (days_of time_left) warn crit).2
        = "Certificate '" ++ cn ++ "' just expired (" ++ timestamp ++ ")."
      ↔ time_left = 0)
    ∧ (time_left = 0 →
        verdict cn timestamp time_left (days_of time_left) warn crit
          = (if 0 > crit then STATE_WARNING else STATE_CRITICAL,
             "Certificate '" ++ cn ++ "' just expired (" ++ timestamp ++ ")."))
    ∧ ∀ (b : Build) (O : OpenSSL) (L : Libc) (m : Module) (env : Env) (cert : X509)
        (subj : X509_NAME) (stamp : tm),
        b.USE_OPENSSL = true → O.SSL_get_peer_certificate m.s = some cert →
        cert.subject = some subj → decode_stamp cert.notAfter = Decoded.value stamp →
        L.timegm stamp - env.time = time_left → display_name subj = cn →
        L.strftime (some "GMT") (L.timegm stamp) = timestamp →
        ((∃ r : Checked, np_net_ssl_check_cert b O L m env warn crit = Outcome.returned r
            ∧ r.line = "Certificate '" ++ cn ++ "' just expired (" ++ timestamp ++ ").")
          ↔ time_left = 0)
        ∧ (time_left = 0 →
            np_net_ssl_check_cert b O L m env warn crit
              = Outcome.returned
                  { status := if 0 > crit then STATE_WARNING else STATE_CRITICAL,
                    line := "Certificate '" ++ cn ++ "' just expired (" ++ timestamp ++ ").",
                    TZ := env.TZ }) := by
  have hiff := verdict_just_expired_iff cn timestamp time_left warn crit
  have hz : time_left = 0 →
      verdict cn timestamp time_left (days_of time_left) warn crit
        = (if 0 > crit then STATE_WARNING else STATE_CRITICAL,
           "Certificate '" ++ cn ++ "' just expired (" ++ timestamp ++ ").") := by
    intro h
    subst h
    exact verdict_just_expired cn timestamp warn crit
  refine ⟨hiff, hz, ?_⟩
  intro b O L m env cert subj stamp hb hc hs hd ht hn hts
  have hcall := check_cert_of_stamp b O L m env warn crit cert subj stamp hb hc hs hd
  rw [ht, hn, hts] at hcall
  refine ⟨⟨?_, ?_⟩, ?_⟩
  · rintro ⟨r, hr, hl⟩
    rw [hcall] at hr
    cases hr
    exact hiff.mp hl
  · intro h0
    exact ⟨_, hcall, hiff.mpr h0⟩
  · intro h0
    rw [hcall, hz h0]

/-- C16 at a certificate whose not-after is the clock, 2024-01-10T00:00:00Z, with
thresholds 10 and 3: the status is CRITICAL and the line says "just expired". -/
theorem C16_just_expired_witness :
    np_net_ssl_check_cert example_build
        (example_openssl (some (example_cert "example.org" "240110000000Z")))
        example_libc Module.initial ⟨none, 1704844800⟩ 10 3
      = Outcome.returned
          { status := STATE_CRITICAL,
            line := "Certificate 'example.org' just expired (1704844800 +0000).",
            TZ := none } :=
  (((C16_just_expired "example.org" "1704844800 +0000" 0 10 3).2.2 example_build
      (example_openssl (some (example_cert "example.org" "240110000000Z")))
      example_libc Module.initial ⟨none, 1704844800⟩
      (example_cert "example.org" "240110000000Z") ⟨some "example.org"⟩
      ⟨124, 0, 10, 0, 0, 0, -1⟩ (by decide) (by decide) (by decide) (by decide) (by decide)
      (by decide) (by decide)).2 rfl).trans (by decide)

/-- C17: the waterfall of the requests "`X` or newer".  Whenever the switch succeeds for
such a request, every protocol in its disabled set is strictly older than `X`; and for
two floors `X` older than `Y` for which it succeeds, every protocol disabled for
"`X` or newer" is disabled for "`Y` or newer". -/
theorem C17_waterfall (b : Build) (k : Versions) (hk : k.distinct) :
    (∀ (X : Protocol) (method : SSL_METHOD) (options : Options),
        version_switch b k (k.or_newer X) = Except.ok (method, options) →
        ∀ p : Protocol, options.disables p = true → p.rank < X.rank)
    ∧ ∀ (X Y : Protocol) (mX mY : SSL_METHOD) (oX oY : Options),
        X.rank < Y.rank →
        version_switch b k (k.or_newer X) = Except.ok (mX, oX) →
        version_switch b k (k.or_newer Y) = Except.ok (mY, oY) →
        ∀ p : Protocol, oX.disables p = true → oY.disables p = true := by
  constructor
  · intro X method options h p hp
    obtain ⟨-, ho⟩ := or_newer_options b k hk X method options h
    subst ho
    cases p <;> cases X <;> simp_all [Options.disables, Protocol.rank]
  · intro X Y mX mY oX oY hXY hX hY p hp
    obtain ⟨-, hoX⟩ := or_newer_options b k hk X mX oX hX
    obtain ⟨-, hoY⟩ := or_newer_options b k hk Y mY oY hY
    subst hoX
    subst hoY
    cases p <;> cases X <;> cases Y <;> simp_all [Options.disables, Protocol.rank]

/-- C17 at the example build and codes: "SSLv3 or newer" disables SSLv2 only, which
"TLSv1.2 or newer" disables too. -/
theorem C17_waterfall_witness :
    example_versions.distinct
    ∧ (Protocol.SSLv3.rank < Protocol.TLSv1_2.rank
      ∧ version_switch example_build example_versions
          (example_versions.or_newer Protocol.SSLv3)
        = Except.ok (SSL_METHOD.SSLv23_client_method, Options.mk true false false false false)
      ∧ version_switch example_build example_versions
          (example_versions.or_newer Protocol.TLSv1_2)
        = Except.ok (SSL_METHOD.SSLv23_client_method, Options.mk true true true true false))
    ∧ (∀ p : Protocol, (Options.mk true false false false false).disables p = true →
        p.rank < Protocol.SSLv3.rank)
    ∧ ∀ p : Protocol, (Options.mk true false false false false).disables p = true →
        (Options.mk true true true true false).disables p = true :=
  ⟨by decide, ⟨by decide, rfl, rfl⟩,
   (C17_waterfall example_build example_versions (by decide)).1 Protocol.SSLv3
      SSL_METHOD.SSLv23_client_method (Options.mk true false false false false) rfl,
   (C17_waterfall example_build example_versions (by decide)).2 Protocol.SSLv3
      Protocol.TLSv1_2 SSL_METHOD.SSLv23_client_method SSL_METHOD.SSLv23_client_method
      (Options.mk true false false false false) (Options.mk true true true true false)
      (by decide) rfl rfl⟩

/-- C18: for every request `version` and every build for which the switch succeeds,
the switch itself never sets the session-ticket bit, and the mask applied to the
context by `SSL_CTX_set_options` has the bit `SSL_OP_NO_TICKET` exactly when the build
defines it, with the protocol bits the switch chose; this holds for every context on
which the options were applied, and such a context exists whenever `SSL_CTX_new`
succeeds and the private-key check does not fail, with or without a client
certificate. -/
theorem C18_session_ticket (b : Build) (k : Versions) (O : OpenSSL) (m : Module) (sd : Int)
    (host_name : Option String) (version : Int) (cert privkey : Option String)
    (method : SSL_METHOD) (options : Options) (hk : k.distinct)
    (hs : version_switch b k version = Except.ok (method, options)) :
    options.NO_TICKET = false
    ∧ (∀ ctx : SSL_CTX,
        (np_net_ssl_init_with_hostname_version_and_cert b k O m sd host_name version
          cert privkey).2.c = some ctx →
        ctx.mode_auto_retry = true →
        ctx.options.NO_TICKET = b.SSL_OP_NO_TICKET
          ∧ ∀ p : Protocol, ctx.options.disables p = options.disables p)
    ∧ (O.SSL_CTX_new method = true →
        (cert = none ∨ privkey = none ∨ b.USE_OPENSSL = false
          ∨ ∀ c : SSL_CTX, O.SSL_CTX_check_private_key c = true) →
        ∃ ctx : SSL_CTX,
          (np_net_ssl_init_with_hostname_version_and_cert b k O m sd host_name version
            cert privkey).2.c = some ctx
          ∧ ctx.mode_auto_retry = true ∧ ctx.options.NO_TICKET = b.SSL_OP_NO_TICKET) := by
  have hnt := version_switch_no_ticket b k hk version method options hs
  have happ : ∀ ctx : SSL_CTX,
      (np_net_ssl_init_with_hostname_version_and_cert b k O m sd host_name version
        cert privkey).2.c = some ctx →
      ctx.mode_auto_retry = true →
      ctx.options.NO_TICKET = b.SSL_OP_NO_TICKET
        ∧ ∀ p : Protocol, ctx.options.disables p = options.disables p := by
    intro ctx hc hr
    have ho := init_context_applied b k O m sd host_name version cert privkey method options
      hs ctx hc hr
    rw [ho]
    constructor
    · cases hT : b.SSL_OP_NO_TICKET <;> simp [Options.or, Options.zero, hnt]
    · intro p
      cases hT : b.SSL_OP_NO_TICKET <;> cases p <;>
        simp [Options.or, Options.zero, Options.disables]
  refine ⟨hnt, happ, ?_⟩
  intro hnew hkey
  obtain ⟨ctx, hc, hr⟩ := init_context_exists b k O m sd host_name version cert privkey
    method options hs hnew hkey
  exact ⟨ctx, hc, hr, (happ ctx hc hr).1⟩

/-- C18 at the example build, which defines `SSL_OP_NO_TICKET`: a TLSv1.2 request with
a client certificate and an Auto request without one both apply the ticket bit. -/
theorem C18_session_ticket_witness :
    (example_versions.distinct
      ∧ version_switch example_build example_versions 5
          = Except.ok (SSL_METHOD.TLSv1_2_client_method, Options.zero)
      ∧ version_switch example_build example_versions 0
          = Except.ok (SSL_METHOD.SSLv23_client_method, Options.zero))
    ∧ (∃ ctx : SSL_CTX,
        (np_net_ssl_init_with_hostname_version_and_cert example_build example_versions
          (example_openssl none) Module.initial 3 (some "example.org") 5
          (some "client.pem") (some "client.key")).2.c = some ctx
        ∧ ctx.mode_auto_retry = true
        ∧ ctx.options.NO_TICKET = example_build.SSL_OP_NO_TICKET)
    ∧ ∃ ctx : SSL_CTX,
        (np_net_ssl_init_with_hostname_version_and_cert example_build example_versions
          (example_openssl none) Module.initial 3 none 0 none none).2.c = some ctx
        ∧ ctx.mode_auto_retry = true
        ∧ ctx.options.NO_TICKET = example_build.SSL_OP_NO_TICKET :=
  ⟨⟨by decide, rfl, rfl⟩,
   (C18_session_ticket example_build example_versions (example_openssl none)
      Module.initial 3 (some "example.org") 5 (some "client.pem") (some "client.key")
      SSL_METHOD.TLSv1_2_client_method Options.zero (by decide) rfl).2.2 rfl
      (Or.inr (Or.inr (Or.inr (fun _ => rfl)))),
   (C18_session_ticket example_build example_versions (example_openssl none)
      Module.initial 3 none 0 none none SSL_METHOD.SSLv23_client_method Options.zero
      (by decide) rfl).2.2 rfl (Or.inl rfl)⟩

/-- C19: the severity is monotone in the time remaining.  For all thresholds, of any
sign and in any order, and `time_left1 <= time_left2`, the status for `time_left2` is
not worse than the one for `time_left1` in the order OK < WARNING < CRITICAL: for the
branch chain, and for two calls on the same certificate of which the second has the
earlier clock. -/
theorem C19_severity_monotone (warn crit : Int) :
    (∀ (cn1 ts1 cn2 ts2 : String) (time_left1 time_left2 : Int),
        time_left1 ≤ time_left2 →
        (verdict cn2 ts2 time_left2 (days_of time_left2) warn crit).1.rank
          ≤ (verdict cn1 ts1 time_left1 (days_of time_left1) warn crit).1.rank)
    ∧ ∀ (b : Build) (O : OpenSSL) (L : Libc) (m : Module) (env1 env2 : Env) (cert : X509)
        (subj : X509_NAME) (stamp : tm) (r1 r2 : Checked),
        b.USE_OPENSSL = true → O.SSL_get_peer_certificate m.s = some cert →
        cert.subject = some subj → decode_stamp cert.notAfter = Decoded.value stamp →
        env2.time ≤ env1.time →
        np_net_ssl_check_cert b O L m env1 warn crit = Outcome.returned r1 →
        np_net_ssl_check_cert b O L m env2 warn crit = Outcome.returned r2 →
        r2.status.rank ≤ r1.status.rank := by
  refine ⟨fun cn1 ts1 cn2 ts2 t1 t2 h => verdict_rank_mono cn1 ts1 cn2 ts2 t1 t2 warn crit h,
    ?_⟩
  intro b O L m env1 env2 cert subj stamp r1 r2 hb hc hs hd ht h1 h2
  rw [check_cert_of_stamp b O L m env1 warn crit cert subj stamp hb hc hs hd] at h1
  rw [check_cert_of_stamp b O L m env2 warn crit cert subj stamp hb hc hs hd] at h2
  cases h1
  cases h2
  exact verdict_rank_mono _ _ _ _ _ _ warn crit (by omega)

/-- C19 with thresholds 10 and 3: one day left is CRITICAL and five days left are
WARNING, which is not worse. -/
theorem C19_severity_monotone_witness :
    (86400 : Int) ≤ 432000
    ∧ (verdict "example.org" "t" 86400 (days_of 86400) 10 3).1 = STATE_CRITICAL
    ∧ (verdict "example.org" "t" 432000 (days_of 432000) 10 3).1 = STATE_WARNING
    ∧ (verdict "example.org" "t" 432000 (days_of 432000) 10 3).1.rank
        ≤ (verdict "example.org" "t" 86400 (days_of 86400) 10 3).1.rank :=
  ⟨by decide, by decide, by decide,
   (C19_severity_monotone 10 3).1 "example.org" "t" "example.org" "t" 86400 432000
     (by decide)⟩

end SslUtils
